import Mathlib

/-
  Verification of the CanorusML structural-import engine
  (CACanorusMLImport: startElement / endElement / importMark /
  importDocumentImpl), shallowly embedded from the C++ source.

  Conventions of the embedding:
  * Heap-allocated score objects live in arenas (plain lists); object
    identity (a C++ pointer) is the arena index.  `delete` is modelled by
    recording the index in a `destroyed` list (a destroyed candidate is
    referenced from nowhere else, exactly as in the source).
  * Undefined behaviour (null-pointer dereference, QList::at out of range,
    QStack top/pop on an empty stack, static_cast to the wrong dynamic
    type followed by a member access) is modelled by the Option monad:
    `none` means the run crashed.
  * A handler returning false is `some (false, state)`: the SAX parse
    aborts but the builder state as mutated so far survives.
  * External Qt/score-library helpers that are not part of the imported
    sources are modelled from the spec; each such definition carries a
    doc comment starting with "Modelled from the spec:".
-/

namespace CanorusML

/-! ## Qt primitives -/

/-- QXmlAttributes: an ordered list of (name, value) pairs;
`value` returns the empty string for an absent attribute. -/
abbrev Attrs := List (String × String)

def Attrs.value (a : Attrs) (k : String) : String :=
  match a.find? (fun p => p.1 = k) with
  | some p => p.2
  | none => ""

def parseDigits : List Char → Option Nat
  | [] => none
  | cs =>
    cs.foldlM (fun acc c => if c.isDigit then some (acc * 10 + (c.toNat - 48)) else none) 0

/-- QString::toInt: the whole string must be an optionally signed decimal
integer, otherwise the result is 0. -/
def qtToInt (s : String) : Int :=
  match s.toList with
  | '-' :: rest => match parseDigits rest with | some n => -(n : Int) | none => 0
  | '+' :: rest => match parseDigits rest with | some n => (n : Int) | none => 0
  | cs => match parseDigits cs with | some n => (n : Int) | none => 0

/-- QString::toUInt: the whole string must be an unsigned decimal integer,
otherwise the result is 0. -/
def qtToUInt (s : String) : Nat :=
  match parseDigits s.toList with
  | some n => n
  | none => 0

/-- QVersionNumber: the list of numeric segments.  The default-constructed
(null) version is the empty list. -/
abbrev QVersionNumber := List Nat

/-- QVersionNumber::isPrefixOf: the receiver's segments are an initial
segment of the other version's segments. -/
def qvIsPrefixOf (a b : QVersionNumber) : Bool :=
  List.isPrefixOf a b

/-- Comparison of the null version against remaining segments (missing
segments count as zero). -/
def qvRestCmp : List Nat → Ordering
  | [] => .eq
  | b :: bs => if 0 < b then .lt else qvRestCmp bs

/-- QVersionNumber::compare: segment-wise comparison, missing trailing
segments counting as zero. -/
def qvCompare : QVersionNumber → QVersionNumber → Ordering
  | [], bs => qvRestCmp bs
  | a :: as_, [] =>
    (match qvRestCmp (a :: as_) with
     | .lt => .gt
     | .gt => .lt
     | .eq => .eq)
  | a :: as_, b :: bs =>
    if a < b then .lt else if b < a then .gt else qvCompare as_ bs

def qvLE (a b : QVersionNumber) : Bool :=
  qvCompare a b ≠ .gt

def splitOnDots : List Char → List (List Char)
  | [] => [[]]
  | c :: cs =>
    match splitOnDots cs with
    | [] => [[]]
    | g :: gs => if c = '.' then [] :: g :: gs else (c :: g) :: gs

/-- QVersionNumber::fromString: dot-separated decimal segments; an
unparseable string yields the null version. -/
def qvFromString (s : String) : QVersionNumber :=
  let segs := (splitOnDots s.toList).map parseDigits
  if segs.all Option.isSome then segs.map (fun o => o.getD 0) else []

/-- A QColor: `none` is the invalid (unset) color.  Modelled from the spec:
Qt parses a color name such as "#ff0000" into a valid color; the parse
itself is external, so a valid color is represented by its source string. -/
abbrev QColor := Option String

def qColorFromString (s : String) : QColor := some s

/-! ## Score data model -/

structure CADiatonicPitch where
  noteName : Int
  accs : Int
deriving DecidableEq, Repr

/-- Modelled from the spec: the default-constructed CADiatonicPitch is the
placeholder "undefined" pitch (note name sentinel, no accidentals). -/
def CADiatonicPitch.empty : CADiatonicPitch := ⟨-1, 0⟩

structure CAPlayableLength where
  musicLength : String
  dotted : Int
deriving DecidableEq, Repr

/-- Modelled from the spec: the default-constructed CAPlayableLength is the
placeholder "undefined" length. -/
def CAPlayableLength.empty : CAPlayableLength := ⟨"undefined", 0⟩

structure CADiatonicKey where
  diatonicPitch : CADiatonicPitch
  gender : String
deriving DecidableEq, Repr

def CADiatonicKey.empty : CADiatonicKey := ⟨CADiatonicPitch.empty, "major"⟩

/-- Modelled from the spec: the external CADiatonicKey(QString) conversion
used by the 0.5-era function-marking shape; opaque to every claim, it is
represented injectively by storing the source string in the gender slot. -/
def caDiatonicKeyFromString (s : String) : CADiatonicKey :=
  ⟨CADiatonicPitch.empty, s⟩

inductive CAContextType
  | Staff | LyricsContext | FiguredBassContext | FunctionMarkContext | ChordNameContext
deriving DecidableEq, Repr

/-- One context of a sheet.  The C++ subclasses (CAStaff, CALyricsContext,
CAFiguredBassContext, CAFunctionMarkContext, CAChordNameContext) are
flattened into one record discriminated by `ctxType`; fields not belonging
to the discriminated kind stay at their defaults. -/
structure CAContext where
  name : String
  ctxType : CAContextType
  numberOfLines : Int := 0
  stanzaNumber : Int := 0
  voices : List Nat := []
  syllables : List Nat := []
  figuredBassMarks : List Nat := []
  functionMarks : List Nat := []
  chordNames : List Nat := []
  associatedVoice : Option Nat := none
deriving DecidableEq, Repr

structure CAVoice where
  name : String
  staff : Nat
  stemDirection : String
  midiChannel : Nat := 0
  midiProgram : Nat := 0
  midiPitchOffset : Int := 0
  elements : List Nat := []
deriving DecidableEq, Repr

structure CASheet where
  name : String
  contexts : List Nat := []
deriving DecidableEq, Repr

structure CAResource where
  name : String
  url : String
  linked : Bool
  description : String
  resType : String
deriving DecidableEq, Repr

structure CADocument where
  title : String := ""
  subtitle : String := ""
  composer : String := ""
  arranger : String := ""
  poet : String := ""
  textTranslator : String := ""
  copyright : String := ""
  dedication : String := ""
  comments : String := ""
  dateCreated : String := ""
  dateLastModified : String := ""
  timeEdited : Nat := 0
  sheets : List Nat := []
  resources : List CAResource := []
deriving DecidableEq, Repr

inductive CAMusEltType
  | Clef | KeySignature | TimeSignature | Barline | Note | Rest
  | Syllable | FiguredBassMark | FunctionMark | ChordName | Slur
deriving DecidableEq, Repr

inductive CAKeySignatureType
  | MajorMinor | Modus | Custom
deriving DecidableEq, Repr

/-- Modelled from the spec: the external
CAKeySignature::keySignatureTypeFromString discriminator; unrecognized
strings fall back to MajorMinor. -/
def keySignatureTypeFromString (s : String) : CAKeySignatureType :=
  if s = "modus" then .Modus else if s = "custom" then .Custom else .MajorMinor

/-- Kind-specific payload of a music element.  Enum-valued attributes whose
string parsers live outside the imported sources (clef type, barline type,
stem direction, slur style and direction, rest type, modus, gender,
function names) are modelled by their source strings. -/
inductive EltData
  | clef (clefType : String) (c1 : Int) (staff : Nat) (offset : Int)
  | keySig (sigType : CAKeySignatureType) (dKey : CADiatonicKey) (modus : String) (staff : Nat)
  | timeSig (beats : Int) (beat : Int) (staff : Nat) (tsType : String)
  | barline (blType : String) (staff : Nat)
  | note (pitch : CADiatonicPitch) (len : CAPlayableLength) (voice : Option Nat)
      (stemDir : String) (tuplet : Option Nat)
      (tieStart : Option Nat) (slurStart : Option Nat) (phrasingSlurStart : Option Nat)
      (slurEnd : Option Nat) (phrasingSlurEnd : Option Nat)
  | rest (restType : String) (len : CAPlayableLength) (voice : Option Nat) (tuplet : Option Nat)
  | syllable (text : String) (hyphen : Bool) (melisma : Bool) (ctx : Option Nat)
      (assocVoice : Option Nat)
  | figuredBassMark (ctx : Option Nat) (numbers : List (Int × Option Int))
  | functionMark (function : String) (minor : Bool) (key : CADiatonicKey) (ctx : Option Nat)
      (chordArea : String) (chordAreaMinor : Bool) (tonicDegree : String)
      (tonicDegreeMinor : Bool) (ellipse : Bool)
  | chordName (pitch : CADiatonicPitch) (qualityModifier : String) (ctx : Option Nat)
  | slur (slurType : String) (slurStyle : String) (slurDirection : String)
      (staff : Nat) (noteStart : Option Nat) (noteEnd : Option Nat)
deriving DecidableEq, Repr

structure CAMusElement where
  timeStart : Int
  timeLength : Int := 0
  color : QColor := none
  marks : List Nat := []
  data : EltData
deriving DecidableEq, Repr

def CAMusElement.eltType (e : CAMusElement) : CAMusEltType :=
  match e.data with
  | .clef _ _ _ _ => .Clef
  | .keySig _ _ _ _ => .KeySignature
  | .timeSig _ _ _ _ => .TimeSignature
  | .barline _ _ => .Barline
  | .note _ _ _ _ _ _ _ _ _ _ => .Note
  | .rest _ _ _ _ => .Rest
  | .syllable _ _ _ _ _ => .Syllable
  | .figuredBassMark _ _ => .FiguredBassMark
  | .functionMark _ _ _ _ _ _ _ _ _ => .FunctionMark
  | .chordName _ _ _ => .ChordName
  | .slur _ _ _ _ _ _ => .Slur

/-- Modelled from the spec: CAMusElement::compare returns equal exactly when
the two elements are attribute-for-attribute equal (same start time, same
time length, same color, same kind-specific payload). -/
def compareEqB (e1 e2 : CAMusElement) : Bool :=
  decide (e1.timeStart = e2.timeStart ∧ e1.timeLength = e2.timeLength ∧
          e1.color = e2.color ∧ e1.data = e2.data)

inductive MarkData
  | text (s : String)
  | tempo (beat : CAPlayableLength) (bpm : Nat)
  | ritardando (finalTempo : Int) (timeLength : Int) (rtType : String)
  | dynamic (text : String) (volume : Int)
  | crescendo (finalVolume : Int) (crType : String) (timeStart : Int) (timeLength : Int)
  | pedal (timeStart : Int) (timeLength : Int)
  | instrumentChange (instrument : Int)
  | bookMark (text : String)
  | rehersalMark
  | fermata (fermataType : String)
  | repeatMark (rmType : String) (voltaNumber : Int)
  | articulation (aType : String)
  | fingering (fingers : List String) (original : Int)
deriving DecidableEq, Repr

structure CAMark where
  owner : Option Nat
  color : QColor := none
  data : MarkData
deriving DecidableEq, Repr

def CAMark.markTypeIsTempo (m : CAMark) : Bool :=
  match m.data with
  | .tempo _ _ => true
  | _ => false

inductive CAMarkType
  | Text | Tempo | Ritardando | Dynamic | Crescendo | Pedal | InstrumentChange
  | BookMark | RehersalMark | Fermata | RepeatMark | Articulation | Fingering | Undefined
deriving DecidableEq, Repr

/-- Modelled from the spec: the external CAMark::markTypeFromString
discriminator; any unrecognized or absent mark-type string maps to
Undefined. -/
def markTypeFromString (s : String) : CAMarkType :=
  if s = "text" then .Text
  else if s = "tempo" then .Tempo
  else if s = "ritardando" then .Ritardando
  else if s = "dynamic" then .Dynamic
  else if s = "crescendo" then .Crescendo
  else if s = "pedal" then .Pedal
  else if s = "instrument-change" then .InstrumentChange
  else if s = "book-mark" then .BookMark
  else if s = "rehersal-mark" then .RehersalMark
  else if s = "fermata" then .Fermata
  else if s = "repeat-mark" then .RepeatMark
  else if s = "articulation" then .Articulation
  else if s = "fingering" then .Fingering
  else .Undefined

structure CATuplet where
  number : Int
  actualNumber : Int
  color : QColor := none
  notes : List Nat := []
deriving DecidableEq, Repr

/-! ## Import state -/

structure ImportState where
  document : Option CADocument := none
  version : QVersionNumber := []
  errorMsg : String := ""
  depth : List String := []
  curSheet : Option Nat := none
  curContext : Option Nat := none
  curVoice : Option Nat := none
  curKeySig : Option Nat := none
  curTimeSig : Option Nat := none
  curClef : Option Nat := none
  curBarline : Option Nat := none
  curNote : Option Nat := none
  curRest : Option Nat := none
  curMusElt : Option Nat := none
  prevMusElt : Option Nat := none
  curMark : Option Nat := none
  curTie : Option Nat := none
  curSlur : Option Nat := none
  curPhrasingSlur : Option Nat := none
  curTuplet : Option Nat := none
  curDiatonicPitch : CADiatonicPitch := CADiatonicPitch.empty
  curDiatonicKey : CADiatonicKey := CADiatonicKey.empty
  curPlayableLength : CAPlayableLength := CAPlayableLength.empty
  curTempoPlayableLength : CAPlayableLength := CAPlayableLength.empty
  lcMap : List (Nat × Int) := []
  syllableMap : List (Nat × Int) := []
  color : QColor := none
  cha : String := ""
  sheets : List CASheet := []
  contexts : List CAContext := []
  voices : List CAVoice := []
  elts : List CAMusElement := []
  marksArena : List CAMark := []
  tuplets : List CATuplet := []
  destroyed : List Nat := []
deriving DecidableEq, Repr

/-- The state produced by initCanorusMLImport on a fresh importer. -/
def initImportState : ImportState := {}

/-! ## Arena access

A C++ pointer dereference is an arena lookup; looking up an index that was
never allocated models a wild pointer and crashes (`none`). -/

def ImportState.setSheet (st : ImportState) (i : Nat) (x : CASheet) : ImportState :=
  { st with sheets := st.sheets.set i x }

def ImportState.setCtx (st : ImportState) (i : Nat) (x : CAContext) : ImportState :=
  { st with contexts := st.contexts.set i x }

def ImportState.setVoice (st : ImportState) (i : Nat) (x : CAVoice) : ImportState :=
  { st with voices := st.voices.set i x }

def ImportState.setElt (st : ImportState) (i : Nat) (x : CAMusElement) : ImportState :=
  { st with elts := st.elts.set i x }

def ImportState.setMark (st : ImportState) (i : Nat) (x : CAMark) : ImportState :=
  { st with marksArena := st.marksArena.set i x }

def ImportState.setTuplet (st : ImportState) (i : Nat) (x : CATuplet) : ImportState :=
  { st with tuplets := st.tuplets.set i x }

def ImportState.allocSheet (st : ImportState) (x : CASheet) : ImportState × Nat :=
  ({ st with sheets := st.sheets ++ [x] }, st.sheets.length)

def ImportState.allocCtx (st : ImportState) (x : CAContext) : ImportState × Nat :=
  ({ st with contexts := st.contexts ++ [x] }, st.contexts.length)

def ImportState.allocVoice (st : ImportState) (x : CAVoice) : ImportState × Nat :=
  ({ st with voices := st.voices ++ [x] }, st.voices.length)

def ImportState.allocElt (st : ImportState) (x : CAMusElement) : ImportState × Nat :=
  ({ st with elts := st.elts ++ [x] }, st.elts.length)

def ImportState.allocMark (st : ImportState) (x : CAMark) : ImportState × Nat :=
  ({ st with marksArena := st.marksArena ++ [x] }, st.marksArena.length)

def ImportState.allocTuplet (st : ImportState) (x : CATuplet) : ImportState × Nat :=
  ({ st with tuplets := st.tuplets ++ [x] }, st.tuplets.length)

/-- QList::at(i): an out-of-range index asserts (modelled as a crash). -/
def listAtInt (l : List α) (i : Int) : Option α :=
  if 0 ≤ i then l[i.toNat]? else none

/-- static_cast to a signed 8-bit char. -/
def intToChar (i : Int) : Int :=
  let m := i.emod 256
  if m ≥ 128 then m - 256 else m

/-! ## Modelled score-library helpers -/

def ctxIsStaffIn (contexts : List CAContext) (i : Nat) : Bool :=
  match contexts[i]? with
  | some c => decide (c.ctxType = CAContextType.Staff)
  | none => false

/-- Modelled from the spec: CASheet::staffList — the contexts of the sheet
that are staves, in declaration order (the score-graph accessor itself is an
external collaborator of the import engine). -/
def staffListIn (contexts : List CAContext) (sh : CASheet) : List Nat :=
  sh.contexts.filter (ctxIsStaffIn contexts)

def ImportState.staffList (st : ImportState) (sh : CASheet) : List Nat :=
  staffListIn st.contexts sh

/-- Modelled from the spec: CASheet::voiceList — the sheet's full voice
list, flattened across its staves in declaration order. -/
def sheetVoiceListIn (contexts : List CAContext) (sh : CASheet) : List Nat :=
  (staffListIn contexts sh).flatMap (fun cid =>
    match contexts[cid]? with
    | some c => c.voices
    | none => [])

def ImportState.sheetVoiceList (st : ImportState) (sh : CASheet) : List Nat :=
  sheetVoiceListIn st.contexts sh

/-- Modelled from the spec: CAStaff::getEltByType — query the staff for all
existing signs of the given concrete kind whose start time equals the given
time, scanning the staff's voices in declaration order. -/
def getEltByTypeIn (voicesArena : List CAVoice) (eltsArena : List CAMusElement)
    (ctx : CAContext) (ty : CAMusEltType) (t : Int) : List Nat :=
  (ctx.voices.flatMap (fun vid =>
    match voicesArena[vid]? with
    | some v => v.elements
    | none => [])).filter (fun i =>
      match eltsArena[i]? with
      | some e => decide (e.eltType = ty) && decide (e.timeStart = t)
      | none => false)

def ImportState.getEltByType (st : ImportState) (ctx : CAContext) (ty : CAMusEltType)
    (t : Int) : List Nat :=
  getEltByTypeIn st.voices st.elts ctx ty t

/-- Modelled from the spec: CAVoice::append — the element is appended to the
voice's time-ordered element sequence; the chord-grouping flag groups
same-start-time elements but does not change membership or the fact that the
element lands at the end of the sequence. -/
def ImportState.appendToVoice (st : ImportState) (vid : Nat) (eid : Nat)
    (_toChord : Bool := false) : Option ImportState := do
  let v ← st.voices[vid]?
  some (st.setVoice vid { v with elements := v.elements ++ [eid] })

/-- Modelled from the spec: CAVoice::lastNote — the last note element of the
voice, if any. -/
def lastNoteIn (eltsArena : List CAMusElement) (v : CAVoice) : Option Nat :=
  (v.elements.filter (fun i =>
    match eltsArena[i]? with
    | some e => decide (e.eltType = CAMusEltType.Note)
    | none => false)).getLast?

def ImportState.lastNoteOf (st : ImportState) (v : CAVoice) : Option Nat :=
  lastNoteIn st.elts v

/-- Modelled from the spec: the base time units of one undotted music
length (a quarter note is 256 units). -/
def musicLengthBase (s : String) : Int :=
  match s with
  | "breve" => 2048
  | "whole" => 1024
  | "half" => 512
  | "quarter" => 256
  | "eighth" => 128
  | "sixteenth" => 64
  | "thirty-second" => 32
  | "sixty-fourth" => 16
  | _ => 0

def dottedAdd (base : Int) : Nat → Int
  | 0 => 0
  | n + 1 => base / 2 + dottedAdd (base / 2) n

/-- Modelled from the spec: CAPlayable::calculateTimeLength derives the time
length from the playable length — the base length of the music length plus
one half, one quarter, ... of it for each dot. -/
def playableTimeLength (l : CAPlayableLength) : Int :=
  musicLengthBase l.musicLength + dottedAdd (musicLengthBase l.musicLength) l.dotted.toNat

def CAMusElement.isPlayable (e : CAMusElement) : Bool :=
  decide (e.eltType = CAMusEltType.Note) || decide (e.eltType = CAMusEltType.Rest)

/-! ## Field accessors and updaters for kind-specific payloads -/

def EltData.noteTuplet : EltData → Option Nat
  | .note _ _ _ _ t _ _ _ _ _ => t
  | .rest _ _ _ t => t
  | _ => none

def EltData.setNoteTuplet : EltData → Option Nat → EltData
  | .note p l v s _ ts ss ps se pe, t => .note p l v s t ts ss ps se pe
  | .rest rt l v _, t => .rest rt l v t
  | d, _ => d

def EltData.setNotePitch : EltData → CADiatonicPitch → EltData
  | .note _ l v s t ts ss ps se pe, p => .note p l v s t ts ss ps se pe
  | d, _ => d

def EltData.setNoteLen : EltData → CAPlayableLength → EltData
  | .note p _ v s t ts ss ps se pe, l => .note p l v s t ts ss ps se pe
  | .rest rt _ v t, l => .rest rt l v t
  | d, _ => d

def EltData.setTieStart : EltData → Option Nat → EltData
  | .note p l v s t _ ss ps se pe, x => .note p l v s t x ss ps se pe
  | d, _ => d

def EltData.setSlurStart : EltData → Option Nat → EltData
  | .note p l v s t ts _ ps se pe, x => .note p l v s t ts x ps se pe
  | d, _ => d

def EltData.setPhrasingSlurStart : EltData → Option Nat → EltData
  | .note p l v s t ts ss _ se pe, x => .note p l v s t ts ss x se pe
  | d, _ => d

def EltData.setSlurEnd : EltData → Option Nat → EltData
  | .note p l v s t ts ss ps _ pe, x => .note p l v s t ts ss ps x pe
  | d, _ => d

def EltData.setPhrasingSlurEnd : EltData → Option Nat → EltData
  | .note p l v s t ts ss ps se _, x => .note p l v s t ts ss ps se x
  | d, _ => d

def EltData.setSlurNoteEnd : EltData → Option Nat → EltData
  | .slur ty sty dir stf ns _, x => .slur ty sty dir stf ns x
  | d, _ => d

def EltData.slurNoteStart : EltData → Option Nat
  | .slur _ _ _ _ ns _ => ns
  | _ => none

def EltData.setSylAssocVoice : EltData → Option Nat → EltData
  | .syllable t h m c _, x => .syllable t h m c x
  | d, _ => d

def EltData.setFunctionKey : EltData → CADiatonicKey → EltData
  | .functionMark f m _ c ca cam td tdm el, k => .functionMark f m k c ca cam td tdm el
  | d, _ => d

def MarkData.setTempoBeat : MarkData → CAPlayableLength → MarkData
  | .tempo _ bpm, pl => .tempo pl bpm
  | d, _ => d

/-- CANote::staff — the note's voice's staff (dereferences the voice). -/
def ImportState.noteStaffOf (st : ImportState) (e : CAMusElement) : Option Nat :=
  match e.data with
  | .note _ _ v _ _ _ _ _ _ _ => do
      let vid ← v
      let voice ← st.voices[vid]?
      some voice.staff
  | _ => none

/-- Modelled from the spec: CANote::updateTies — re-derive this note's tie
linkage consistency: if the note preceding this one in the voice carries a
tie whose end note was left dangling, fix that tie's end note up to this
note.  No claim depends on the details of this external repair. -/
def ImportState.updateTies (st : ImportState) (vid : Nat) (nid : Nat) : ImportState :=
  match st.voices[vid]? with
  | none => st
  | some v =>
    match st.lastNoteOf { v with elements := v.elements.dropLast } with
    | none => st
    | some pid =>
      match st.elts[pid]? with
      | some pe =>
        match pe.data with
        | .note _ _ _ _ _ (some tid) _ _ _ _ =>
          match st.elts[tid]? with
          | some te =>
            match te.data with
            | .slur ty sty dir stf ns none =>
              if decide (ty = "tie") then
                st.setElt tid { te with data := .slur ty sty dir stf ns (some nid) }
              else st
            | _ => st
          | none => st
        | _ => st
      | none => st

/-- Modelled from the spec: CATuplet::assignTimes — recompute every member
note/rest's actual time length from the tuplet ratio once all members are
seen. -/
def ImportState.assignTimes (st : ImportState) (t : CATuplet) : ImportState :=
  t.notes.foldl (fun s i =>
    match s.elts[i]? with
    | some e =>
      let pl := match e.data with
        | .note _ len _ _ _ _ _ _ _ _ => len
        | .rest _ len _ _ => len
        | _ => CAPlayableLength.empty
      if t.actualNumber = 0 then s
      else s.setElt i { e with timeLength := playableTimeLength pl * t.number / t.actualNumber }
    | none => s) st

/-- Modelled from the spec: CAStaff::synchronizeVoices — the external,
idempotent voice-repair collaborator invoked at document close; its
internals live outside the import engine and no claim depends on them, so
the repair pass is modelled as the identity. -/
def ImportState.synchronizeVoices (st : ImportState) (_cid : Nat) : ImportState := st

/-! ## The Mark/Resource factory -/

def collectFingersGo (attributes : Attrs) : Nat → Nat → List String
  | 0, _ => []
  | fuel + 1, i =>
    let v := attributes.value ("finger" ++ toString i)
    if v = "" then [] else v :: collectFingersGo attributes fuel (i + 1)

/-- The Fingering loop: finger0, finger1, ... until the first absent/empty
attribute.  The source loop is bounded here by the attribute count, within
which the first absent key always lies. -/
def collectFingers (attributes : Attrs) : List String :=
  collectFingersGo attributes (attributes.length + 1) 0

/-- CACanorusMLImport::importMark.  Builds exactly one concrete mark for a
recognized mark-type (or none, for Undefined or for a Fermata on an element
that is neither playable nor a barline) and attaches it to the current
music element; the current-mark cursor is reset to null first and points at
the built mark afterwards, staying null when nothing was built. -/
def importMark (st0 : ImportState) (attributes : Attrs) : Option ImportState := do
  let ty := markTypeFromString (attributes.value "mark-type")
  let st : ImportState := { st0 with curMark := none }
  let made : Option MarkData ←
    (match ty with
     | .Text => some (some (.text (attributes.value "text")))
     | .Tempo =>
       some (some (.tempo
         (if qvIsPrefixOf [0, 5] st.version then
            ⟨attributes.value "beat", qtToInt (attributes.value "beat-dotted")⟩
          else CAPlayableLength.empty)
         (qtToUInt (attributes.value "bpm") % 256)))
     | .Ritardando =>
       some (some (.ritardando (qtToInt (attributes.value "final-tempo"))
         (qtToInt (attributes.value "time-length")) (attributes.value "ritardando-type")))
     | .Dynamic =>
       some (some (.dynamic (attributes.value "text") (qtToInt (attributes.value "volume"))))
     | .Crescendo =>
       some (some (.crescendo (qtToInt (attributes.value "final-volume"))
         (attributes.value "crescendo-type") (qtToInt (attributes.value "time-start"))
         (qtToInt (attributes.value "time-length"))))
     | .Pedal =>
       some (some (.pedal (qtToInt (attributes.value "time-start"))
         (qtToInt (attributes.value "time-length"))))
     | .InstrumentChange =>
       some (some (.instrumentChange (qtToInt (attributes.value "instrument"))))
     | .BookMark => some (some (.bookMark (attributes.value "text")))
     | .RehersalMark => some (some .rehersalMark)
     | .Fermata => do
       let eid ← st.curMusElt
       let e ← st.elts[eid]?
       if e.isPlayable then some (some (.fermata (attributes.value "fermata-type")))
       else if e.eltType = CAMusEltType.Barline then
         some (some (.fermata (attributes.value "fermata-type")))
       else some none
     | .RepeatMark =>
       some (some (.repeatMark (attributes.value "repeat-mark-type")
         (qtToInt (attributes.value "volta-number"))))
     | .Articulation =>
       some (some (.articulation (attributes.value "articulation-type")))
     | .Fingering =>
       some (some (.fingering (collectFingers attributes)
         (qtToInt (attributes.value "original"))))
     | .Undefined => some none : Option (Option MarkData))
  match made with
  | none => some st
  | some d => do
    let (st1, mid) := st.allocMark { owner := st.curMusElt, data := d }
    let eid ← st1.curMusElt
    let e ← st1.elts[eid]?
    let st2 := st1.setElt eid { e with marks := e.marks ++ [mid] }
    some { st2 with curMark := some mid }

/-- CACanorusMLImport::importResource.  The URL resolution against the
importing file's directory is inactive for stream-based imports (no file).
Modelled from the spec: the external CAResourceCtl::importResource registers
a document-owned resource whose description is then set from the attribute
payload. -/
def importResource (st : ImportState) (attributes : Attrs) : Option ImportState := do
  let doc ← st.document
  let r : CAResource := {
    name := attributes.value "name",
    url := attributes.value "url",
    linked := qtToInt (attributes.value "linked") ≠ 0,
    description := attributes.value "description",
    resType := attributes.value "resource-type" }
  some { st with document := some { doc with resources := doc.resources ++ [r] } }

/-! ## startElement -/

/-- The uniform display-color preamble of startElement: a non-empty color
attribute is parsed, then discarded again when the declared version is at
most 0.7.3 (the pre-0.7.4 color-serialization defect). -/
def colorPreamble (st : ImportState) (attributes : Attrs) : ImportState :=
  if attributes.value "color" ≠ "" then
    if qvLE st.version [0, 7, 3] then { st with color := none }
    else { st with color := qColorFromString (attributes.value "color") }
  else { st with color := none }

/-- `_curMusElt->setColor(_color)` on an arbitrary element id. -/
def ImportState.setEltColor (st : ImportState) (i : Nat) : Option ImportState := do
  let e ← st.elts[i]?
  some (st.setElt i { e with color := st.color })

/-- The conditional slur-style / slur-direction attribute overrides applied
to a freshly built slur-family element. -/
def applySlurAttrs (st : ImportState) (sid : Nat) (attributes : Attrs) :
    Option ImportState := do
  let e ← st.elts[sid]?
  let e1 := if attributes.value "slur-style" ≠ "" then
      (match e.data with
       | .slur ty _ dir stf ns ne =>
         { e with data := .slur ty (attributes.value "slur-style") dir stf ns ne }
       | _ => e)
    else e
  let e2 := if attributes.value "slur-direction" ≠ "" then
      (match e1.data with
       | .slur ty sty _ stf ns ne =>
         { e1 with data := .slur ty sty (attributes.value "slur-direction") stf ns ne }
       | _ => e1)
    else e1
  some (st.setElt sid e2)

/-- Continuation of the startElement kind-dispatch: the branches from "note"
onwards, in source order. -/
def startBranch2 (st : ImportState) (qName : String) (attributes : Attrs) :
    Option (Bool × ImportState) :=
  if qName = "note" then
    let old := qvIsPrefixOf [0, 5] st.version
    let pitch := if old then
        CADiatonicPitch.mk (qtToInt (attributes.value "pitch")) (qtToInt (attributes.value "accs"))
      else CADiatonicPitch.empty
    let len := if old then
        CAPlayableLength.mk (attributes.value "playable-length") (qtToInt (attributes.value "dotted"))
      else CAPlayableLength.empty
    let stemDir := if attributes.value "stem-direction" ≠ "" then
        attributes.value "stem-direction" else "neutral"
    let (st1, eid) := st.allocElt {
      timeStart := qtToInt (attributes.value "time-start"),
      timeLength := qtToInt (attributes.value "time-length"),
      data := .note pitch len st.curVoice stemDir none none none none none none }
    (do
      let st2 ←
        (match st1.curTuplet with
         | some tid => do
           let t ← st1.tuplets[tid]?
           let e ← st1.elts[eid]?
           let s := st1.setElt eid { e with data := e.data.setNoteTuplet (some tid) }
           some (s.setTuplet tid { t with notes := t.notes ++ [eid] })
         | none => some st1 : Option ImportState)
      let st3 : ImportState := { st2 with curNote := some eid, curMusElt := some eid }
      let st4 ← st3.setEltColor eid
      some (true, st4))
  else if qName = "tie" then do
    let nid ← st.curNote
    let n ← st.elts[nid]?
    let staffId ← st.noteStaffOf n
    let (st1, sid) := st.allocElt {
      timeStart := n.timeStart,
      data := .slur "tie" "default" "preferred" staffId (some nid) none }
    let st2 := st1.setElt nid { n with data := n.data.setTieStart (some sid) }
    let st3 ← applySlurAttrs st2 sid attributes
    let st4 : ImportState := { st3 with
      prevMusElt := st3.curMusElt, curMusElt := some sid, curTie := some sid }
    let st5 ← st4.setEltColor sid
    some (true, st5)
  else if qName = "slur-start" then do
    let nid ← st.curNote
    let n ← st.elts[nid]?
    let staffId ← st.noteStaffOf n
    let (st1, sid) := st.allocElt {
      timeStart := n.timeStart,
      data := .slur "slur" "default" "preferred" staffId (some nid) none }
    let st2 := st1.setElt nid { n with data := n.data.setSlurStart (some sid) }
    let st3 ← applySlurAttrs st2 sid attributes
    let st4 : ImportState := { st3 with
      prevMusElt := st3.curMusElt, curMusElt := some sid, curSlur := some sid }
    let st5 ← st4.setEltColor sid
    some (true, st5)
  else if qName = "slur-end" then
    match st.curSlur with
    | some sid => do
      let nid ← st.curNote
      let n ← st.elts[nid]?
      let st1 := st.setElt nid { n with data := n.data.setSlurEnd (some sid) }
      let s ← st1.elts[sid]?
      let st2 := st1.setElt sid { s with data := s.data.setSlurNoteEnd (some nid) }
      let startNid ← s.data.slurNoteStart
      let sn ← st2.elts[startNid]?
      let s2 ← st2.elts[sid]?
      let st3 := st2.setElt sid { s2 with timeLength := n.timeStart - sn.timeStart }
      some (true, { st3 with curSlur := none })
    | none => some (true, st)
  else if qName = "phrasing-slur-start" then do
    let nid ← st.curNote
    let n ← st.elts[nid]?
    let staffId ← st.noteStaffOf n
    let (st1, sid) := st.allocElt {
      timeStart := n.timeStart,
      data := .slur "phrasing-slur" "default" "preferred" staffId (some nid) none }
    let st2 := st1.setElt nid { n with data := n.data.setPhrasingSlurStart (some sid) }
    let st3 ← applySlurAttrs st2 sid attributes
    let st4 : ImportState := { st3 with
      prevMusElt := st3.curMusElt, curMusElt := some sid, curPhrasingSlur := some sid }
    let st5 ← st4.setEltColor sid
    some (true, st5)
  else if qName = "phrasing-slur-end" then
    match st.curPhrasingSlur with
    | some sid => do
      let nid ← st.curNote
      let n ← st.elts[nid]?
      let st1 := st.setElt nid { n with data := n.data.setPhrasingSlurEnd (some sid) }
      let s ← st1.elts[sid]?
      let st2 := st1.setElt sid { s with data := s.data.setSlurNoteEnd (some nid) }
      let startNid ← s.data.slurNoteStart
      let sn ← st2.elts[startNid]?
      let s2 ← st2.elts[sid]?
      let st3 := st2.setElt sid { s2 with timeLength := n.timeStart - sn.timeStart }
      some (true, { st3 with curPhrasingSlur := none })
    | none => some (true, st)
  else if qName = "tuplet" then
    let (st1, tid) := st.allocTuplet {
      number := qtToInt (attributes.value "number"),
      actualNumber := qtToInt (attributes.value "actual-number") }
    let st2 := match st1.tuplets[tid]? with
      | some t => st1.setTuplet tid { t with color := st1.color }
      | none => st1
    some (true, { st2 with curTuplet := some tid })
  else if qName = "rest" then
    let old := qvIsPrefixOf [0, 5] st.version
    let len := if old then
        CAPlayableLength.mk (attributes.value "playable-length") (qtToInt (attributes.value "dotted"))
      else CAPlayableLength.empty
    let (st1, eid) := st.allocElt {
      timeStart := qtToInt (attributes.value "time-start"),
      timeLength := qtToInt (attributes.value "time-length"),
      data := .rest (attributes.value "rest-type") len st.curVoice none }
    (do
      let st2 ←
        (match st1.curTuplet with
         | some tid => do
           let t ← st1.tuplets[tid]?
           let e ← st1.elts[eid]?
           let s := st1.setElt eid { e with data := e.data.setNoteTuplet (some tid) }
           some (s.setTuplet tid { t with notes := t.notes ++ [eid] })
         | none => some st1 : Option ImportState)
      let st3 : ImportState := { st2 with curRest := some eid, curMusElt := some eid }
      let st4 ← st3.setEltColor eid
      some (true, st4))
  else if qName = "syllable" then do
    let cid ← st.curContext
    let ctx ← st.contexts[cid]?
    if ctx.ctxType = CAContextType.LyricsContext then do
      let (st1, eid) := st.allocElt {
        timeStart := qtToInt (attributes.value "time-start"),
        timeLength := qtToInt (attributes.value "time-length"),
        data := .syllable (attributes.value "text") (attributes.value "hyphen" = "1")
          (attributes.value "melisma" = "1") (some cid) none }
      let st2 := st1.setCtx cid { ctx with syllables := ctx.syllables ++ [eid] }
      let st3 := if attributes.value "associated-voice-idx" ≠ "" then
          { st2 with syllableMap := st2.syllableMap ++ [(eid, qtToInt (attributes.value "associated-voice-idx"))] }
        else st2
      let st4 : ImportState := { st3 with curMusElt := some eid }
      let st5 ← st4.setEltColor eid
      some (true, st5)
    else none
  else if qName = "figured-bass-mark" then do
    let cid ← st.curContext
    let ctx ← st.contexts[cid]?
    if ctx.ctxType = CAContextType.FiguredBassContext then do
      let (st1, eid) := st.allocElt {
        timeStart := qtToInt (attributes.value "time-start"),
        timeLength := qtToInt (attributes.value "time-length"),
        data := .figuredBassMark (some cid) [] }
      let st2 := st1.setCtx cid { ctx with figuredBassMarks := ctx.figuredBassMarks ++ [eid] }
      let st3 : ImportState := { st2 with curMusElt := some eid }
      let st4 ← st3.setEltColor eid
      some (true, st4)
    else none
  else if qName = "figured-bass-number" then do
    let eid ← st.curMusElt
    let e ← st.elts[eid]?
    match e.data with
    | .figuredBassMark c nums =>
      let entry : Int × Option Int :=
        if attributes.value "accs" = "" then (qtToInt (attributes.value "number"), none)
        else (qtToInt (attributes.value "number"), some (qtToInt (attributes.value "accs")))
      some (true, st.setElt eid { e with data := .figuredBassMark c (nums ++ [entry]) })
    | _ => none
  else if qName = "function-mark" ∨
      (qvIsPrefixOf [0, 5] st.version = true ∧ qName = "function-marking") then do
    let cid ← st.curContext
    let ctx ← st.contexts[cid]?
    if ctx.ctxType = CAContextType.FunctionMarkContext then do
      let keyVal := if qvIsPrefixOf [0, 5] st.version then
          caDiatonicKeyFromString
            (if attributes.value "key" = "" then "C" else attributes.value "key")
        else CADiatonicKey.empty
      let (st1, eid) := st.allocElt {
        timeStart := qtToInt (attributes.value "time-start"),
        timeLength := qtToInt (attributes.value "time-length"),
        data := .functionMark (attributes.value "function") (attributes.value "minor" = "1")
          keyVal (some cid) (attributes.value "chord-area")
          (attributes.value "chord-area-minor" = "1") (attributes.value "tonic-degree")
          (attributes.value "tonic-degree-minor" = "1") (attributes.value "ellipse" = "1") }
      let st2 := st1.setCtx cid { ctx with functionMarks := ctx.functionMarks ++ [eid] }
      let st3 : ImportState := { st2 with curMusElt := some eid }
      let st4 ← st3.setEltColor eid
      some (true, st4)
    else none
  else if qName = "chord-name" then do
    let (st1, eid) := st.allocElt {
      timeStart := qtToInt (attributes.value "time-start"),
      timeLength := qtToInt (attributes.value "time-length"),
      data := .chordName CADiatonicPitch.empty (attributes.value "quality-modifier")
        st.curContext }
    let st2 : ImportState := { st1 with curMusElt := some eid }
    let st3 ← st2.setEltColor eid
    some (true, st3)
  else if qName = "mark" then do
    let st1 ← importMark st attributes
    let mid ← st1.curMark
    let m ← st1.marksArena[mid]?
    some (true, st1.setMark mid { m with color := st1.color })
  else if qName = "playable-length" then do
    let top ← st.depth.head?
    let pl : CAPlayableLength := ⟨attributes.value "music-length",
      qtToInt (attributes.value "dotted")⟩
    if top = "mark" then some (true, { st with curTempoPlayableLength := pl })
    else some (true, { st with curPlayableLength := pl })
  else if qName = "diatonic-pitch" then
    some (true, { st with curDiatonicPitch :=
      ⟨qtToInt (attributes.value "note-name"), qtToInt (attributes.value "accs")⟩ })
  else if qName = "diatonic-key" then
    some (true, { st with curDiatonicKey :=
      ⟨CADiatonicPitch.empty, attributes.value "gender"⟩ })
  else if qName = "resource" then do
    let st1 ← importResource st attributes
    some (true, st1)
  else
    some (true, st)

/-- The kind-dispatch of CACanorusMLImport::startElement (everything between
the color preamble and the final depth push).  Error strings follow the
source with contractions expanded. -/
def startBranch (st : ImportState) (qName : String) (attributes : Attrs) :
    Option (Bool × ImportState) :=
  if qName = "document" then
    some (true, { st with document := some {
      title := attributes.value "title",
      subtitle := attributes.value "subtitle",
      composer := attributes.value "composer",
      arranger := attributes.value "arranger",
      poet := attributes.value "poet",
      textTranslator := attributes.value "text-translator",
      copyright := attributes.value "copyright",
      dedication := attributes.value "dedication",
      comments := attributes.value "comments",
      dateCreated := attributes.value "date-created",
      dateLastModified := attributes.value "date-last-modified",
      timeEdited := qtToUInt (attributes.value "time-edited") } })
  else if qName = "sheet" then do
    let doc ← st.document
    let sheetName0 := attributes.value "name"
    let sheetName := if sheetName0 = "" then "Sheet" ++ toString (doc.sheets.length + 1)
      else sheetName0
    let (st1, sid) := st.allocSheet { name := sheetName }
    some (true, { st1 with
      document := some { doc with sheets := doc.sheets ++ [sid] },
      curSheet := some sid })
  else if qName = "staff" then
    if st.curSheet.isNone then
      some (false, { st with errorMsg := "The sheet where to add the staff does not exist yet!" })
    else do
      let shId ← st.curSheet
      let sh ← st.sheets[shId]?
      let staffName0 := attributes.value "name"
      let staffName := if staffName0 = "" then
          "Staff" ++ toString ((st.staffList sh).length + 1)
        else staffName0
      let (st1, cid) := st.allocCtx {
        name := staffName, ctxType := .Staff,
        numberOfLines := qtToInt (attributes.value "number-of-lines") }
      let st2 := st1.setSheet shId { sh with contexts := sh.contexts ++ [cid] }
      some (true, { st2 with curContext := some cid })
  else if qName = "lyrics-context" then
    if st.curSheet.isNone then
      some (false, { st with errorMsg := "The sheet where to add the lyrics context does not exist yet!" })
    else do
      let shId ← st.curSheet
      let sh ← st.sheets[shId]?
      let lcName0 := attributes.value "name"
      let lcName := if lcName0 = "" then "LyricsContext" ++ toString (sh.contexts.length + 1)
        else lcName0
      let (st1, cid) := st.allocCtx {
        name := lcName, ctxType := .LyricsContext,
        stanzaNumber := qtToInt (attributes.value "stanza-number") }
      let st2 := if attributes.value "associated-voice-idx" ≠ "" then
          { st1 with lcMap := st1.lcMap ++ [(cid, qtToInt (attributes.value "associated-voice-idx"))] }
        else st1
      let st3 := st2.setSheet shId { sh with contexts := sh.contexts ++ [cid] }
      some (true, { st3 with curContext := some cid })
  else if qName = "figured-bass-context" then
    if st.curSheet.isNone then
      some (false, { st with errorMsg := "The sheet where to add the figured bass context does not exist yet!" })
    else do
      let shId ← st.curSheet
      let sh ← st.sheets[shId]?
      let fbcName0 := attributes.value "name"
      let fbcName := if fbcName0 = "" then
          "FiguredBassContext" ++ toString (sh.contexts.length + 1)
        else fbcName0
      let (st1, cid) := st.allocCtx { name := fbcName, ctxType := .FiguredBassContext }
      let st2 := st1.setSheet shId { sh with contexts := sh.contexts ++ [cid] }
      some (true, { st2 with curContext := some cid })
  else if qName = "function-mark-context" ∨ qName = "function-marking-context" then
    if st.curSheet.isNone then
      some (false, { st with errorMsg := "The sheet where to add the function mark context does not exist yet!" })
    else do
      let shId ← st.curSheet
      let sh ← st.sheets[shId]?
      let fmcName0 := attributes.value "name"
      let fmcName := if fmcName0 = "" then
          "FunctionMarkContext" ++ toString (sh.contexts.length + 1)
        else fmcName0
      let (st1, cid) := st.allocCtx { name := fmcName, ctxType := .FunctionMarkContext }
      let st2 := st1.setSheet shId { sh with contexts := sh.contexts ++ [cid] }
      some (true, { st2 with curContext := some cid })
  else if qName = "chord-name-context" then
    if st.curSheet.isNone then
      some (false, { st with errorMsg := "The sheet where to add the chord name context does not exist yet!" })
    else do
      let shId ← st.curSheet
      let sh ← st.sheets[shId]?
      let cncName0 := attributes.value "name"
      let cncName := if cncName0 = "" then
          "ChordNameContext" ++ toString (sh.contexts.length + 1)
        else cncName0
      let (st1, cid) := st.allocCtx { name := cncName, ctxType := .ChordNameContext }
      let st2 := st1.setSheet shId { sh with contexts := sh.contexts ++ [cid] }
      some (true, { st2 with curContext := some cid })
  else if qName = "voice" then
    let voiceName0 := attributes.value "name"
    match st.curContext with
    | none =>
      some (false, { st with errorMsg :=
        "The context where the voice " ++ voiceName0 ++ " should be added does not exist yet!" })
    | some cid => do
      let ctx ← st.contexts[cid]?
      if ctx.ctxType ≠ CAContextType.Staff then
        some (false, { st with errorMsg :=
          "The context type which contains voice " ++ voiceName0 ++ " is not staff!" })
      else
        let voiceNumber := ctx.voices.length + 1
        let voiceName := if voiceName0 = "" then "Voice" ++ toString voiceNumber else voiceName0
        let stemDir := if attributes.value "stem-direction" ≠ "" then
            attributes.value "stem-direction" else "neutral"
        let v0 : CAVoice := { name := voiceName, staff := cid, stemDirection := stemDir }
        let v1 := if attributes.value "midi-channel" ≠ "" then
            { v0 with midiChannel := qtToUInt (attributes.value "midi-channel") % 256 } else v0
        let v2 := if attributes.value "midi-program" ≠ "" then
            { v1 with midiProgram := qtToUInt (attributes.value "midi-program") % 256 } else v1
        let v3 := if attributes.value "midi-pitch-offset" ≠ "" then
            { v2 with midiPitchOffset := intToChar (qtToInt (attributes.value "midi-pitch-offset")) }
          else v2
        let (st1, vid) := st.allocVoice v3
        let st2 := st1.setCtx cid { ctx with voices := ctx.voices ++ [vid] }
        some (true, { st2 with curVoice := some vid })
  else if qName = "clef" then do
    let vid ← st.curVoice
    let v ← st.voices[vid]?
    let (st1, eid) := st.allocElt {
      timeStart := qtToInt (attributes.value "time-start"),
      data := .clef (attributes.value "clef-type") (qtToInt (attributes.value "c1"))
        v.staff (qtToInt (attributes.value "offset")) }
    let st2 := { st1 with curClef := some eid, curMusElt := some eid }
    let st3 ← st2.setEltColor eid
    some (true, st3)
  else if qName = "time-signature" then do
    let vid ← st.curVoice
    let v ← st.voices[vid]?
    let (st1, eid) := st.allocElt {
      timeStart := qtToInt (attributes.value "time-start"),
      data := .timeSig (qtToInt (attributes.value "beats")) (qtToInt (attributes.value "beat"))
        v.staff (attributes.value "time-signature-type") }
    let st2 := { st1 with curTimeSig := some eid, curMusElt := some eid }
    let st3 ← st2.setEltColor eid
    some (true, st3)
  else if qName = "key-signature" then do
    let st1 ←
      (match keySignatureTypeFromString (attributes.value "key-signature-type") with
       | .MajorMinor => do
         let vid ← st.curVoice
         let v ← st.voices[vid]?
         let (s, eid) := st.allocElt {
           timeStart := qtToInt (attributes.value "time-start"),
           data := .keySig .MajorMinor CADiatonicKey.empty "" v.staff }
         some { s with curKeySig := some eid }
       | .Modus => do
         let vid ← st.curVoice
         let v ← st.voices[vid]?
         let (s, eid) := st.allocElt {
           timeStart := qtToInt (attributes.value "time-start"),
           data := .keySig .Modus CADiatonicKey.empty (attributes.value "modus") v.staff }
         some { s with curKeySig := some eid }
       | .Custom => some st : Option ImportState)
    let st2 : ImportState := { st1 with curMusElt := st1.curKeySig }
    let eid ← st2.curMusElt
    let st3 ← st2.setEltColor eid
    some (true, st3)
  else if qName = "barline" then do
    let vid ← st.curVoice
    let v ← st.voices[vid]?
    let (st1, eid) := st.allocElt {
      timeStart := qtToInt (attributes.value "time-start"),
      data := .barline (attributes.value "barline-type") v.staff }
    some (true, { st1 with curBarline := some eid, curMusElt := some eid })
  else
    startBranch2 st qName attributes

/-- CACanorusMLImport::startElement: color preamble, kind dispatch, then —
only when no branch returned false — the push of the kind onto the depth
stack and the `return true`. -/
def startElement (st0 : ImportState) (qName : String) (attributes : Attrs) :
    Option (Bool × ImportState) := do
  let r ← startBranch (colorPreamble st0 attributes) qName attributes
  match r with
  | (false, st') => some (false, st')
  | (true, st') => some (true, { st' with depth := qName :: st'.depth })

/-- CACanorusMLImport::characters: record the latest text payload. -/
def characters (st : ImportState) (ch : String) : Option (Bool × ImportState) :=
  some (true, { st with cha := ch })

/-! ## endElement -/

/-- The search loop inside each sign close: among the staff's signs of the
candidate's concrete kind at the candidate's start time, the first one that
compares attribute-for-attribute equal to the candidate and is not already
contained in the current voice's element sequence. -/
def findSign (st : ImportState) (ctx : CAContext) (ty : CAMusEltType)
    (cand : CAMusElement) (v : CAVoice) : Option Nat :=
  (st.getEltByType ctx ty cand.timeStart).find? (fun i =>
    (match st.elts[i]? with
     | some e => compareEqB e cand
     | none => false) && !(v.elements.contains i))

/-- The shared close logic of the four sign kinds (clef, key-signature,
time-signature, barline): look the staff up for an attribute-for-attribute
equal sign at the same start time that the current voice does not contain
yet; append that sign and destroy the candidate if found, append the
candidate otherwise.  `clearCursor` nulls the kind's cursor in the
duplicate case. -/
def closeSign (st : ImportState) (ty : CAMusEltType) (sidO : Option Nat)
    (clearCursor : ImportState → ImportState) : Option (Bool × ImportState) :=
  match st.curContext, st.curVoice with
  | some cid, some vid => do
    let ctx ← st.contexts[cid]?
    if ctx.ctxType = CAContextType.Staff then do
      let sid ← sidO
      let cand ← st.elts[sid]?
      let v ← st.voices[vid]?
      match findSign st ctx ty cand v with
      | none => do
        let st1 ← st.appendToVoice vid sid
        some (true, st1)
      | some s => do
        let st1 ← st.appendToVoice vid s
        some (true, clearCursor { st1 with destroyed := st1.destroyed ++ [sid] })
    else some (false, st)
  | _, _ => some (false, st)

def sheetsStaffIds (st : ImportState) (doc : CADocument) : List Nat :=
  doc.sheets.flatMap (fun shid =>
    match st.sheets[shid]? with
    | some sh => st.staffList sh
    | none => [])

def assignLcVoice (voices : List Nat) (st : ImportState) (p : Nat × Int) :
    Option ImportState := do
  let vid ← listAtInt voices p.2
  let c ← st.contexts[p.1]?
  some (st.setCtx p.1 { c with associatedVoice := some vid })

def assignSylVoice (voices : List Nat) (st : ImportState) (p : Nat × Int) :
    Option ImportState :=
  if 0 ≤ p.2 ∧ p.2 < (voices.length : Int) then do
    let vid ← listAtInt voices p.2
    let e ← st.elts[p.1]?
    some (st.setElt p.1 { e with data := e.data.setSylAssocVoice (some vid) })
  else some st

/-- The kind-dispatch of CACanorusMLImport::endElement (everything before
the final buffer clear, depth pop and cursor restore). -/
def endBranch (st : ImportState) (qName : String) : Option (Bool × ImportState) :=
  if qName = "canorus-version" then
    some (true, { st with version := qvFromString st.cha })
  else if qName = "document" then
    let st1 := match st.document with
      | none => st
      | some doc => (sheetsStaffIds st doc).foldl ImportState.synchronizeVoices st
    some (true, st1)
  else if qName = "sheet" then do
    let shId ← st.curSheet
    let sh ← st.sheets[shId]?
    let voices := st.sheetVoiceList sh
    let st1 ← st.lcMap.foldlM (assignLcVoice voices) st
    let st2 ← st1.syllableMap.foldlM (assignSylVoice voices) st1
    some (true, { st2 with lcMap := [], syllableMap := [], curSheet := none })
  else if qName = "staff" then
    some (true, { st with curContext := none })
  else if qName = "voice" then
    some (true, { st with curVoice := none })
  else if qName = "clef" then
    closeSign st CAMusEltType.Clef st.curClef (fun s => { s with curClef := none })
  else if qName = "key-signature" then
    match st.curContext, st.curVoice with
    | some cid, some _ => do
      let ctx ← st.contexts[cid]?
      if ctx.ctxType = CAContextType.Staff then do
        let sid ← st.curKeySig
        let e ← st.elts[sid]?
        let st1 := match e.data with
          | .keySig .MajorMinor _ m staffId =>
            st.setElt sid { e with data := .keySig .MajorMinor st.curDiatonicKey m staffId }
          | _ => st
        closeSign st1 CAMusEltType.KeySignature st1.curKeySig
          (fun s => { s with curKeySig := none })
      else some (false, st)
    | _, _ => some (false, st)
  else if qName = "time-signature" then
    closeSign st CAMusEltType.TimeSignature st.curTimeSig
      (fun s => { s with curTimeSig := none })
  else if qName = "barline" then
    closeSign st CAMusEltType.Barline st.curBarline (fun s => { s with curBarline := none })
  else if qName = "note" then do
    let st1 ←
      (if qvIsPrefixOf [0, 5] st.version then some st
       else do
         let nid ← st.curNote
         let e ← st.elts[nid]?
         let e1 := { e with data := e.data.setNoteLen st.curPlayableLength }
         let e2 := if e1.data.noteTuplet.isNone then
             { e1 with timeLength := playableTimeLength st.curPlayableLength }
           else e1
         let e3 := { e2 with data := e2.data.setNotePitch st.curDiatonicPitch }
         some (st.setElt nid e3) : Option ImportState)
    let nid ← st1.curNote
    let n ← st1.elts[nid]?
    let vid ← st1.curVoice
    let v ← st1.voices[vid]?
    let isChord :=
      match st1.lastNoteOf v with
      | some lid =>
        match st1.elts[lid]? with
        | some le => decide (le.timeStart = n.timeStart)
        | none => false
      | none => false
    let st2 ← st1.appendToVoice vid nid isChord
    let st3 := st2.updateTies vid nid
    some (true, { st3 with curNote := none })
  else if qName = "tie" then
    some (true, st)
  else if qName = "tuplet" then do
    let tid ← st.curTuplet
    let t ← st.tuplets[tid]?
    some (true, { st.assignTimes t with curTuplet := none })
  else if qName = "rest" then do
    let st1 ←
      (if qvIsPrefixOf [0, 5] st.version then some st
       else do
         let rid ← st.curRest
         let e ← st.elts[rid]?
         let e1 := { e with data := e.data.setNoteLen st.curPlayableLength }
         let e2 := if e1.data.noteTuplet.isNone then
             { e1 with timeLength := playableTimeLength st.curPlayableLength }
           else e1
         some (st.setElt rid e2) : Option ImportState)
    let rid ← st1.curRest
    let vid ← st1.curVoice
    let st2 ← st1.appendToVoice vid rid
    some (true, { st2 with curRest := none })
  else if qName = "mark" then
    if qvIsPrefixOf [0, 5] st.version then some (true, st)
    else do
      let mid ← st.curMark
      let m ← st.marksArena[mid]?
      if m.markTypeIsTempo then
        some (true, st.setMark mid { m with data := m.data.setTempoBeat st.curTempoPlayableLength })
      else some (true, st)
  else if qName = "function-mark" then
    if qvIsPrefixOf [0, 5] st.version then some (true, st)
    else do
      let eid ← st.curMusElt
      let e ← st.elts[eid]?
      if e.eltType = CAMusEltType.FunctionMark then
        some (true, st.setElt eid { e with data := e.data.setFunctionKey st.curDiatonicKey })
      else some (true, st)
  else if qName = "diatonic-key" then
    some (true, { st with curDiatonicKey :=
      { st.curDiatonicKey with diatonicPitch := st.curDiatonicPitch } })
  else if qName = "chord-name" then do
    let eid ← st.curMusElt
    let e ← st.elts[eid]?
    match e.data with
    | .chordName _ q c => do
      let st1 := st.setElt eid { e with data := .chordName st.curDiatonicPitch q c }
      let cid ← st.curContext
      let ctx ← st1.contexts[cid]?
      if ctx.ctxType = CAContextType.ChordNameContext then
        some (true, st1.setCtx cid { ctx with chordNames := ctx.chordNames ++ [eid] })
      else none
    | _ => none
  else
    some (true, st)

/-- The unconditional tail of endElement: clear the text buffer, pop the
depth stack (popping an empty stack is a crash), and restore the generic
music-element cursor from the saved previous one if set. -/
def endAlways (st : ImportState) : Option ImportState := do
  let _ ← st.depth.head?
  let st1 : ImportState := { st with cha := "", depth := st.depth.tail }
  match st1.prevMusElt with
  | some p => some { st1 with curMusElt := some p, prevMusElt := none }
  | none => some st1

/-- CACanorusMLImport::endElement: kind dispatch, then — only when no branch
returned false — the buffer clear, depth pop and cursor restore, and the
`return true`. -/
def endElement (st : ImportState) (qName : String) : Option (Bool × ImportState) := do
  let r ← endBranch st qName
  match r with
  | (false, st') => some (false, st')
  | (true, st') => do
    let st'' ← endAlways st'
    some (true, st'')

/-! ## The event loop -/

/-- One callback of the external SAX tokenizer. -/
inductive XmlEvent
  | openEvt (qName : String) (attributes : Attrs)
  | closeEvt (qName : String)
  | charsEvt (s : String)
deriving DecidableEq, Repr

def step (st : ImportState) : XmlEvent → Option (Bool × ImportState)
  | .openEvt q a => startElement st q a
  | .closeEvt q => endElement st q
  | .charsEvt s => characters st s

/-- The reader loop: events are fed to the handler until one returns false
(the parse aborts, keeping the state built so far) or the list is
exhausted.  The Bool records whether the whole stream was accepted. -/
def runEvents : ImportState → List XmlEvent → Option (Bool × ImportState)
  | st, [] => some (true, st)
  | st, e :: es => do
    let (ok, st') ← step st e
    if ok then runEvents st' es else some (false, st')

/-- CACanorusMLImport::importDocumentImpl: parse the whole source (the
QXmlSimpleReader drives startElement/endElement/characters and stops on the
first handler failure or fatal tokenizer error, whose result is ignored),
then return `document()` — whatever document object exists at that point. -/
def importDocumentImpl (events : List XmlEvent) : Option (Option CADocument) := do
  let (_, st) ← runEvents initImportState events
  some st.document

/-! ## Definitions supporting the verification statements -/

/-- The uniformly parsed display color: unset unless a non-empty color
attribute arrives on a post-0.7.3 document. -/
def parsedColor (st : ImportState) (a : Attrs) : QColor :=
  if a.value "color" ≠ "" then
    (if qvLE st.version [0, 7, 3] then none else qColorFromString (a.value "color"))
  else none

/-- A state whose depth stack and text buffer are non-trivial, for observing
that a failing close event leaves both untouched. -/
def c7FailState : ImportState := { initImportState with depth := ["clef"], cha := "x" }

/-- Version-0.8.0 preamble followed by a barline carrying a color attribute. -/
def c4Events : List XmlEvent :=
  [.openEvt "canorus-version" [], .charsEvt "0.8.0", .closeEvt "canorus-version",
   .openEvt "document" [], .openEvt "sheet" [], .openEvt "staff" [], .openEvt "voice" [],
   .openEvt "barline" [("barline-type", "normal"), ("time-start", "0"), ("color", "#ff0000")]]

/-- A version-0.7.3 document with a colored note. -/
def c4NoteEvents073 : List XmlEvent :=
  [.openEvt "canorus-version" [], .charsEvt "0.7.3", .closeEvt "canorus-version",
   .openEvt "document" [], .openEvt "sheet" [], .openEvt "staff" [], .openEvt "voice" [],
   .openEvt "note" [("pitch", "5"), ("time-start", "0"), ("color", "#ff0000")]]

/-- A version-0.8.0 document with a colored note. -/
def c4NoteEvents080 : List XmlEvent :=
  [.openEvt "canorus-version" [], .charsEvt "0.8.0", .closeEvt "canorus-version",
   .openEvt "document" [], .openEvt "sheet" [], .openEvt "staff" [], .openEvt "voice" [],
   .openEvt "note" [("pitch", "5"), ("time-start", "0"), ("color", "#ff0000")]]

/-- A sheet holding one staff; the next context to open is the sheet's first
lyrics context but its second context overall. -/
def c9Events : List XmlEvent :=
  [.openEvt "document" [], .openEvt "sheet" [], .openEvt "staff" [], .closeEvt "staff",
   .openEvt "lyrics-context" []]

/-- The state after opening a document and a sheet. -/
def c9WitState : ImportState :=
  ((runEvents initImportState [.openEvt "document" [], .openEvt "sheet" []]).getD
    (true, initImportState)).2

/-- The state after opening a document, sheet, staff and voice. -/
def c10State : ImportState :=
  ((runEvents initImportState
    [.openEvt "document" [], .openEvt "sheet" [], .openEvt "staff" [],
     .openEvt "voice" []]).getD (true, initImportState)).2

/-- An import stream declaring version 0.5 whose note open event carries the
pitch directly in its attributes. -/
def c2Events : List XmlEvent :=
  [.openEvt "canorus-version" [], .charsEvt "0.5", .closeEvt "canorus-version",
   .openEvt "document" [], .openEvt "sheet" [], .openEvt "staff" [],
   .openEvt "voice" [],
   .openEvt "note" [("pitch", "5"), ("accs", "0"), ("time-start", "0"),
     ("time-length", "10")]]

/-! ## Support lemmas -/

theorem set_concat_self (l : List α) (a b : α) : (l ++ [a]).set l.length b = l ++ [b] := by
  induction l with
  | nil => rfl
  | cons x xs ih => simp [ih]


theorem exists_conj_hoist {α β : Sort _} {P : α → Prop} {Q : α → β → Prop} {C : β → Prop} :
    (∃ b, (∃ a, P a ∧ Q a b) ∧ C b) ↔ ∃ a, P a ∧ ∃ b, Q a b ∧ C b := by
  constructor
  · rintro ⟨b, ⟨a, hp, hq⟩, hc⟩
    exact ⟨a, hp, b, hq, hc⟩
  · rintro ⟨a, hp, b, hq, hc⟩
    exact ⟨b, ⟨a, hp, hq⟩, hc⟩

theorem colorPreamble_eq (st : ImportState) (a : Attrs) :
    colorPreamble st a = { st with color := parsedColor st a } := by
  unfold colorPreamble parsedColor
  by_cases h1 : a.value "color" ≠ ""
  · by_cases h2 : qvLE st.version [0, 7, 3]
    · simp [h1, h2]
    · simp [h1, h2]
  · simp [h1]

/-- C6: opening a voice element while the current context cursor is unset, or
set to a context whose kind is not Staff, makes the open handler fail with a
descriptive error message and constructs no Voice object. -/
theorem c6_voice_precondition (st : ImportState) (attributes : Attrs)
    (h : st.curContext = none ∨
      ∃ cid ctx, st.curContext = some cid ∧ st.contexts[cid]? = some ctx ∧
        ctx.ctxType ≠ CAContextType.Staff) :
    ∃ st', startElement st "voice" attributes = some (false, st') ∧
      st'.voices = st.voices ∧
      (st'.errorMsg =
          "The context where the voice " ++ attributes.value "name" ++
            " should be added does not exist yet!" ∨
        st'.errorMsg =
          "The context type which contains voice " ++ attributes.value "name" ++
            " is not staff!") := by
  rcases h with hnone | ⟨cid, ctx, hc, hget, hty⟩
  · refine ⟨{ st with
      color := parsedColor st attributes,
      errorMsg := "The context where the voice " ++ attributes.value "name" ++
        " should be added does not exist yet!" }, ?_, rfl, Or.inl rfl⟩
    simp [startElement, startBranch, colorPreamble_eq, hnone]
  · refine ⟨{ st with
      color := parsedColor st attributes,
      errorMsg := "The context type which contains voice " ++ attributes.value "name" ++
        " is not staff!" }, ?_, rfl, Or.inr rfl⟩
    simp [startElement, startBranch, colorPreamble_eq, hc, hget, hty]

theorem clef_open_eq (st : ImportState) (attributes : Attrs) (vid : Nat) (v : CAVoice)
    (hvid : st.curVoice = some vid) (hv : st.voices[vid]? = some v) :
    startElement st "clef" attributes = some (true, { st with
      color := parsedColor st attributes,
      elts := st.elts ++ [{
        timeStart := qtToInt (attributes.value "time-start"),
        color := parsedColor st attributes,
        data := .clef (attributes.value "clef-type") (qtToInt (attributes.value "c1"))
          v.staff (qtToInt (attributes.value "offset")) }],
      curClef := some st.elts.length,
      curMusElt := some st.elts.length,
      depth := "clef" :: st.depth }) := by
  simp [startElement, startBranch, colorPreamble_eq, hvid, hv, ImportState.allocElt,
    ImportState.setEltColor, ImportState.setElt, List.getElem?_concat_length, set_concat_self]

theorem timeSig_open_eq (st : ImportState) (attributes : Attrs) (vid : Nat) (v : CAVoice)
    (hvid : st.curVoice = some vid) (hv : st.voices[vid]? = some v) :
    startElement st "time-signature" attributes = some (true, { st with
      color := parsedColor st attributes,
      elts := st.elts ++ [{
        timeStart := qtToInt (attributes.value "time-start"),
        color := parsedColor st attributes,
        data := .timeSig (qtToInt (attributes.value "beats")) (qtToInt (attributes.value "beat"))
          v.staff (attributes.value "time-signature-type") }],
      curTimeSig := some st.elts.length,
      curMusElt := some st.elts.length,
      depth := "time-signature" :: st.depth }) := by
  simp [startElement, startBranch, colorPreamble_eq, hvid, hv, ImportState.allocElt,
    ImportState.setEltColor, ImportState.setElt, List.getElem?_concat_length, set_concat_self]

theorem keySigMM_open_eq (st : ImportState) (attributes : Attrs) (vid : Nat) (v : CAVoice)
    (hvid : st.curVoice = some vid) (hv : st.voices[vid]? = some v)
    (hks : keySignatureTypeFromString (attributes.value "key-signature-type") =
      CAKeySignatureType.MajorMinor) :
    startElement st "key-signature" attributes = some (true, { st with
      color := parsedColor st attributes,
      elts := st.elts ++ [{
        timeStart := qtToInt (attributes.value "time-start"),
        color := parsedColor st attributes,
        data := .keySig .MajorMinor CADiatonicKey.empty "" v.staff }],
      curKeySig := some st.elts.length,
      curMusElt := some st.elts.length,
      depth := "key-signature" :: st.depth }) := by
  simp [startElement, startBranch, colorPreamble_eq, hvid, hv, hks, ImportState.allocElt,
    ImportState.setEltColor, ImportState.setElt, List.getElem?_concat_length, set_concat_self]

theorem barline_open_eq (st : ImportState) (attributes : Attrs) (vid : Nat) (v : CAVoice)
    (hvid : st.curVoice = some vid) (hv : st.voices[vid]? = some v) :
    startElement st "barline" attributes = some (true, { st with
      color := parsedColor st attributes,
      elts := st.elts ++ [{
        timeStart := qtToInt (attributes.value "time-start"),
        data := .barline (attributes.value "barline-type") v.staff }],
      curBarline := some st.elts.length,
      curMusElt := some st.elts.length,
      depth := "barline" :: st.depth }) := by
  simp [startElement, startBranch, colorPreamble_eq, hvid, hv, ImportState.allocElt]

theorem note_open_eq (st : ImportState) (attributes : Attrs)
    (htu : st.curTuplet = none) :
    startElement st "note" attributes = some (true, { st with
      color := parsedColor st attributes,
      elts := st.elts ++ [{
        timeStart := qtToInt (attributes.value "time-start"),
        timeLength := qtToInt (attributes.value "time-length"),
        color := parsedColor st attributes,
        data := .note
          (if qvIsPrefixOf [0, 5] st.version then
            CADiatonicPitch.mk (qtToInt (attributes.value "pitch"))
              (qtToInt (attributes.value "accs"))
           else CADiatonicPitch.empty)
          (if qvIsPrefixOf [0, 5] st.version then
            CAPlayableLength.mk (attributes.value "playable-length")
              (qtToInt (attributes.value "dotted"))
           else CAPlayableLength.empty)
          st.curVoice
          (if attributes.value "stem-direction" ≠ "" then
            attributes.value "stem-direction" else "neutral")
          none none none none none none }],
      curNote := some st.elts.length,
      curMusElt := some st.elts.length,
      depth := "note" :: st.depth }) := by
  by_cases hold : qvIsPrefixOf [0, 5] st.version <;>
  · simp [startElement, startBranch, startBranch2, colorPreamble_eq, htu, hold,
      ImportState.allocElt, ImportState.setEltColor, ImportState.setElt,
      List.getElem?_concat_length, set_concat_self]

theorem rest_open_eq (st : ImportState) (attributes : Attrs)
    (htu : st.curTuplet = none) :
    startElement st "rest" attributes = some (true, { st with
      color := parsedColor st attributes,
      elts := st.elts ++ [{
        timeStart := qtToInt (attributes.value "time-start"),
        timeLength := qtToInt (attributes.value "time-length"),
        color := parsedColor st attributes,
        data := .rest (attributes.value "rest-type")
          (if qvIsPrefixOf [0, 5] st.version then
            CAPlayableLength.mk (attributes.value "playable-length")
              (qtToInt (attributes.value "dotted"))
           else CAPlayableLength.empty)
          st.curVoice none }],
      curRest := some st.elts.length,
      curMusElt := some st.elts.length,
      depth := "rest" :: st.depth }) := by
  by_cases hold : qvIsPrefixOf [0, 5] st.version <;>
  · simp [startElement, startBranch, startBranch2, colorPreamble_eq, htu, hold,
      ImportState.allocElt, ImportState.setEltColor, ImportState.setElt,
      List.getElem?_concat_length, set_concat_self]

theorem chordName_open_eq (st : ImportState) (attributes : Attrs) :
    startElement st "chord-name" attributes = some (true, { st with
      color := parsedColor st attributes,
      elts := st.elts ++ [{
        timeStart := qtToInt (attributes.value "time-start"),
        timeLength := qtToInt (attributes.value "time-length"),
        color := parsedColor st attributes,
        data := .chordName CADiatonicPitch.empty (attributes.value "quality-modifier")
          st.curContext }],
      curMusElt := some st.elts.length,
      depth := "chord-name" :: st.depth }) := by
  simp [startElement, startBranch, startBranch2, colorPreamble_eq,
    ImportState.allocElt, ImportState.setEltColor, ImportState.setElt,
    List.getElem?_concat_length, set_concat_self]

theorem sheet_open_eq (st : ImportState) (attributes : Attrs) (doc : CADocument)
    (hdoc : st.document = some doc) (hname : attributes.value "name" = "") :
    startElement st "sheet" attributes = some (true, { st with
      color := parsedColor st attributes,
      sheets := st.sheets ++ [{ name := "Sheet" ++ toString (doc.sheets.length + 1) }],
      document := some { doc with sheets := doc.sheets ++ [st.sheets.length] },
      curSheet := some st.sheets.length,
      depth := "sheet" :: st.depth }) := by
  simp [startElement, startBranch, colorPreamble_eq, hdoc, hname, ImportState.allocSheet]

theorem staff_open_eq (st : ImportState) (attributes : Attrs) (shId : Nat) (sh : CASheet)
    (hsh : st.curSheet = some shId) (hget : st.sheets[shId]? = some sh)
    (hname : attributes.value "name" = "") :
    startElement st "staff" attributes = some (true, { st with
      color := parsedColor st attributes,
      contexts := st.contexts ++ [{
        name := "Staff" ++ toString ((staffListIn st.contexts sh).length + 1),
        ctxType := .Staff,
        numberOfLines := qtToInt (attributes.value "number-of-lines") }],
      sheets := st.sheets.set shId { sh with contexts := sh.contexts ++ [st.contexts.length] },
      curContext := some st.contexts.length,
      depth := "staff" :: st.depth }) := by
  simp [startElement, startBranch, colorPreamble_eq, hsh, hget, hname,
    ImportState.staffList, ImportState.allocCtx, ImportState.setSheet]

theorem lyricsContext_open_eq (st : ImportState) (attributes : Attrs) (shId : Nat) (sh : CASheet)
    (hsh : st.curSheet = some shId) (hget : st.sheets[shId]? = some sh)
    (hname : attributes.value "name" = "")
    (hidx : attributes.value "associated-voice-idx" = "") :
    startElement st "lyrics-context" attributes = some (true, { st with
      color := parsedColor st attributes,
      contexts := st.contexts ++ [{
        name := "LyricsContext" ++ toString (sh.contexts.length + 1),
        ctxType := .LyricsContext,
        stanzaNumber := qtToInt (attributes.value "stanza-number") }],
      sheets := st.sheets.set shId { sh with contexts := sh.contexts ++ [st.contexts.length] },
      curContext := some st.contexts.length,
      depth := "lyrics-context" :: st.depth }) := by
  simp [startElement, startBranch, colorPreamble_eq, hsh, hget, hname, hidx,
    ImportState.allocCtx, ImportState.setSheet]

theorem figuredBassContext_open_eq (st : ImportState) (attributes : Attrs) (shId : Nat)
    (sh : CASheet) (hsh : st.curSheet = some shId) (hget : st.sheets[shId]? = some sh)
    (hname : attributes.value "name" = "") :
    startElement st "figured-bass-context" attributes = some (true, { st with
      color := parsedColor st attributes,
      contexts := st.contexts ++ [{
        name := "FiguredBassContext" ++ toString (sh.contexts.length + 1),
        ctxType := .FiguredBassContext }],
      sheets := st.sheets.set shId { sh with contexts := sh.contexts ++ [st.contexts.length] },
      curContext := some st.contexts.length,
      depth := "figured-bass-context" :: st.depth }) := by
  simp [startElement, startBranch, colorPreamble_eq, hsh, hget, hname,
    ImportState.allocCtx, ImportState.setSheet]

theorem functionMarkContext_open_eq (st : ImportState) (attributes : Attrs) (shId : Nat)
    (sh : CASheet) (hsh : st.curSheet = some shId) (hget : st.sheets[shId]? = some sh)
    (hname : attributes.value "name" = "") :
    startElement st "function-mark-context" attributes = some (true, { st with
      color := parsedColor st attributes,
      contexts := st.contexts ++ [{
        name := "FunctionMarkContext" ++ toString (sh.contexts.length + 1),
        ctxType := .FunctionMarkContext }],
      sheets := st.sheets.set shId { sh with contexts := sh.contexts ++ [st.contexts.length] },
      curContext := some st.contexts.length,
      depth := "function-mark-context" :: st.depth }) := by
  simp [startElement, startBranch, colorPreamble_eq, hsh, hget, hname,
    ImportState.allocCtx, ImportState.setSheet]

theorem chordNameContext_open_eq (st : ImportState) (attributes : Attrs) (shId : Nat)
    (sh : CASheet) (hsh : st.curSheet = some shId) (hget : st.sheets[shId]? = some sh)
    (hname : attributes.value "name" = "") :
    startElement st "chord-name-context" attributes = some (true, { st with
      color := parsedColor st attributes,
      contexts := st.contexts ++ [{
        name := "ChordNameContext" ++ toString (sh.contexts.length + 1),
        ctxType := .ChordNameContext }],
      sheets := st.sheets.set shId { sh with contexts := sh.contexts ++ [st.contexts.length] },
      curContext := some st.contexts.length,
      depth := "chord-name-context" :: st.depth }) := by
  simp [startElement, startBranch, colorPreamble_eq, hsh, hget, hname,
    ImportState.allocCtx, ImportState.setSheet]

theorem voice_open_eq (st : ImportState) (attributes : Attrs) (cid : Nat) (ctx : CAContext)
    (hc : st.curContext = some cid) (hget : st.contexts[cid]? = some ctx)
    (hty : ctx.ctxType = CAContextType.Staff)
    (hname : attributes.value "name" = "")
    (hmc : attributes.value "midi-channel" = "")
    (hmp : attributes.value "midi-program" = "")
    (hmo : attributes.value "midi-pitch-offset" = "") :
    startElement st "voice" attributes = some (true, { st with
      color := parsedColor st attributes,
      voices := st.voices ++ [{
        name := "Voice" ++ toString (ctx.voices.length + 1),
        staff := cid,
        stemDirection := if attributes.value "stem-direction" ≠ "" then
          attributes.value "stem-direction" else "neutral" }],
      contexts := st.contexts.set cid { ctx with voices := ctx.voices ++ [st.voices.length] },
      curVoice := some st.voices.length,
      depth := "voice" :: st.depth }) := by
  simp [startElement, startBranch, colorPreamble_eq, hc, hget, hty, hname, hmc, hmp, hmo,
    ImportState.allocVoice, ImportState.setCtx]

theorem foldl_proj {β : Type} (g : ImportState → β) {α' : Type} {f : ImportState → α' → ImportState}
    (hf : ∀ s i, g (f s i) = g s) :
    ∀ (l : List α') (st : ImportState), g (l.foldl f st) = g st := by
  intro l
  induction l with
  | nil => intro st; rfl
  | cons a tl ih => intro st; rw [List.foldl_cons, ih, hf]

theorem foldlM_proj {β : Type} (g : ImportState → β) {α' : Type}
    {f : ImportState → α' → Option ImportState}
    (hf : ∀ s p s', f s p = some s' → g s' = g s) :
    ∀ (l : List α') (st st' : ImportState), l.foldlM f st = some st' → g st' = g st := by
  intro l
  induction l with
  | nil =>
    intro st st' h
    simp only [List.foldlM_nil, Option.pure_def, Option.some.injEq] at h
    rw [← h]
  | cons a tl ih =>
    intro st st' h
    rw [List.foldlM_cons] at h
    rw [Option.bind_eq_bind', Option.bind_eq_some'] at h
    obtain ⟨s1, h1, h2⟩ := h
    rw [ih s1 st' h2, hf st a s1 h1]

@[simp]
theorem synchronizeVoices_foldl (st : ImportState) (l : List Nat) :
    l.foldl ImportState.synchronizeVoices st = st := by
  induction l generalizing st with
  | nil => rfl
  | cons a tl ih => rw [List.foldl_cons]; exact ih _

@[simp]
theorem updateTies_depth (st : ImportState) (vid nid : Nat) :
    (st.updateTies vid nid).depth = st.depth := by
  unfold ImportState.updateTies
  repeat' split
  all_goals rfl

@[simp]
theorem updateTies_cha (st : ImportState) (vid nid : Nat) :
    (st.updateTies vid nid).cha = st.cha := by
  unfold ImportState.updateTies
  repeat' split
  all_goals rfl

theorem updateTies_frame (st : ImportState) (vid nid : Nat) :
    st.updateTies vid nid = { st with elts := (st.updateTies vid nid).elts } := by
  unfold ImportState.updateTies
  repeat' split
  all_goals rfl

@[simp]
theorem assignTimes_depth (st : ImportState) (t : CATuplet) :
    (st.assignTimes t).depth = st.depth := by
  unfold ImportState.assignTimes
  refine foldl_proj ImportState.depth (fun s i => ?_) t.notes st
  repeat' split
  all_goals rfl

@[simp]
theorem assignTimes_cha (st : ImportState) (t : CATuplet) :
    (st.assignTimes t).cha = st.cha := by
  unfold ImportState.assignTimes
  refine foldl_proj ImportState.cha (fun s i => ?_) t.notes st
  repeat' split
  all_goals rfl

theorem assignLcVoice_proj {β : Type} (g : ImportState → β)
    (hg : ∀ s i c, g (s.setCtx i c) = g s) (voices : List Nat) (s : ImportState)
    (p : Nat × Int) (s' : ImportState) (h : assignLcVoice voices s p = some s') :
    g s' = g s := by
  unfold assignLcVoice at h
  rw [Option.bind_eq_bind', Option.bind_eq_some'] at h
  obtain ⟨vid, h1, h⟩ := h
  rw [Option.bind_eq_bind', Option.bind_eq_some'] at h
  obtain ⟨c, h2, h⟩ := h
  simp only [Option.some.injEq] at h
  rw [← h, hg]

theorem assignSylVoice_proj {β : Type} (g : ImportState → β)
    (hg : ∀ s i e, g (s.setElt i e) = g s) (voices : List Nat) (s : ImportState)
    (p : Nat × Int) (s' : ImportState) (h : assignSylVoice voices s p = some s') :
    g s' = g s := by
  unfold assignSylVoice at h
  split at h
  · rw [Option.bind_eq_bind', Option.bind_eq_some'] at h
    obtain ⟨vid, h1, h⟩ := h
    rw [Option.bind_eq_bind', Option.bind_eq_some'] at h
    obtain ⟨e, h2, h⟩ := h
    simp only [Option.some.injEq] at h
    rw [← h, hg]
  · simp only [Option.some.injEq] at h
    rw [← h]

theorem closeSign_preserves (st : ImportState) (ty : CAMusEltType) (sidO : Option Nat)
    (clear : ImportState → ImportState) (r : Bool × ImportState)
    (h : closeSign st ty sidO clear = some r)
    (hclear : ∀ s, (clear s).depth = s.depth ∧ (clear s).cha = s.cha) :
    r.2.depth = st.depth ∧ r.2.cha = st.cha := by
  unfold closeSign at h
  split at h
  · rw [Option.bind_eq_bind', Option.bind_eq_some'] at h
    obtain ⟨ctx, hc, h⟩ := h
    split at h
    · rw [Option.bind_eq_bind', Option.bind_eq_some'] at h
      obtain ⟨sid, hs, h⟩ := h
      rw [Option.bind_eq_bind', Option.bind_eq_some'] at h
      obtain ⟨cand, he, h⟩ := h
      rw [Option.bind_eq_bind', Option.bind_eq_some'] at h
      obtain ⟨v, hv, h⟩ := h
      split at h
      · rw [Option.bind_eq_bind', Option.bind_eq_some'] at h
        obtain ⟨st1, h1, h⟩ := h
        unfold ImportState.appendToVoice at h1
        rw [Option.bind_eq_bind', Option.bind_eq_some'] at h1
        obtain ⟨v', hv', h1⟩ := h1
        simp only [Option.some.injEq] at h h1
        rw [← h, ← h1]
        exact ⟨rfl, rfl⟩
      · rw [Option.bind_eq_bind', Option.bind_eq_some'] at h
        obtain ⟨st1, h1, h⟩ := h
        unfold ImportState.appendToVoice at h1
        rw [Option.bind_eq_bind', Option.bind_eq_some'] at h1
        obtain ⟨v', hv', h1⟩ := h1
        simp only [Option.some.injEq] at h h1
        rw [← h, ← h1]
        refine ⟨(hclear _).1.trans rfl, (hclear _).2.trans rfl⟩
    · simp only [Option.some.injEq] at h
      rw [← h]
      exact ⟨rfl, rfl⟩
  · simp only [Option.some.injEq] at h
    rw [← h]
    exact ⟨rfl, rfl⟩

/-! ## Preservation of the depth stack and text buffer -/

set_option maxHeartbeats 4000000 in
theorem startBranch_preserves (st : ImportState) (q : String) (a : Attrs)
    (r : Bool × ImportState) (h : startBranch st q a = some r) :
    r.2.depth = st.depth ∧ r.2.cha = st.cha := by
  unfold startBranch at h
  by_cases h1 : q = "document"
  · rw [if_pos h1] at h
    repeat' (first
      | (simp only [Option.bind_eq_bind', Option.bind_eq_some', Option.bind_eq_some,
          Option.some.injEq, Option.some_bind, Option.none_bind,
          List.getElem?_concat_length, set_concat_self,
          and_assoc, exists_and_left, exists_eq_left', exists_eq_left, exists_conj_hoist,
          ImportState.allocElt, ImportState.allocCtx, ImportState.allocSheet,
          ImportState.allocVoice, ImportState.allocMark, ImportState.allocTuplet,
          ImportState.setElt, ImportState.setCtx, ImportState.setSheet, ImportState.setVoice,
          ImportState.setMark, ImportState.setTuplet, ImportState.setEltColor, applySlurAttrs,
          importMark, importResource, ImportState.noteStaffOf] at h)
      | (split at h)
      | (obtain ⟨w, e1, h⟩ := h))
    all_goals (first
      | (subst_vars; exact ⟨rfl, rfl⟩)
      | (rw [← e1]; exact ⟨rfl, rfl⟩)
      | (rw [← h]; exact ⟨rfl, rfl⟩)
      | (subst h; subst_vars; exact ⟨rfl, rfl⟩)
      | simp_all)
  rw [if_neg h1] at h
  by_cases h2 : q = "sheet"
  · rw [if_pos h2] at h
    repeat' (first
      | (simp only [Option.bind_eq_bind', Option.bind_eq_some', Option.bind_eq_some,
          Option.some.injEq, Option.some_bind, Option.none_bind,
          List.getElem?_concat_length, set_concat_self,
          and_assoc, exists_and_left, exists_eq_left', exists_eq_left, exists_conj_hoist,
          ImportState.allocElt, ImportState.allocCtx, ImportState.allocSheet,
          ImportState.allocVoice, ImportState.allocMark, ImportState.allocTuplet,
          ImportState.setElt, ImportState.setCtx, ImportState.setSheet, ImportState.setVoice,
          ImportState.setMark, ImportState.setTuplet, ImportState.setEltColor, applySlurAttrs,
          importMark, importResource, ImportState.noteStaffOf] at h)
      | (split at h)
      | (obtain ⟨w, e1, h⟩ := h))
    all_goals (first
      | (subst_vars; exact ⟨rfl, rfl⟩)
      | (rw [← e1]; exact ⟨rfl, rfl⟩)
      | (rw [← h]; exact ⟨rfl, rfl⟩)
      | (subst h; subst_vars; exact ⟨rfl, rfl⟩)
      | simp_all)
  rw [if_neg h2] at h
  by_cases h3 : q = "staff"
  · rw [if_pos h3] at h
    repeat' (first
      | (simp only [Option.bind_eq_bind', Option.bind_eq_some', Option.bind_eq_some,
          Option.some.injEq, Option.some_bind, Option.none_bind,
          List.getElem?_concat_length, set_concat_self,
          and_assoc, exists_and_left, exists_eq_left', exists_eq_left, exists_conj_hoist,
          ImportState.allocElt, ImportState.allocCtx, ImportState.allocSheet,
          ImportState.allocVoice, ImportState.allocMark, ImportState.allocTuplet,
          ImportState.setElt, ImportState.setCtx, ImportState.setSheet, ImportState.setVoice,
          ImportState.setMark, ImportState.setTuplet, ImportState.setEltColor, applySlurAttrs,
          importMark, importResource, ImportState.noteStaffOf] at h)
      | (split at h)
      | (obtain ⟨w, e1, h⟩ := h))
    all_goals (first
      | (subst_vars; exact ⟨rfl, rfl⟩)
      | (rw [← e1]; exact ⟨rfl, rfl⟩)
      | (rw [← h]; exact ⟨rfl, rfl⟩)
      | (subst h; subst_vars; exact ⟨rfl, rfl⟩)
      | simp_all)
  rw [if_neg h3] at h
  by_cases h4 : q = "lyrics-context"
  · rw [if_pos h4] at h
    repeat' (first
      | (simp only [Option.bind_eq_bind', Option.bind_eq_some', Option.bind_eq_some,
          Option.some.injEq, Option.some_bind, Option.none_bind,
          List.getElem?_concat_length, set_concat_self,
          and_assoc, exists_and_left, exists_eq_left', exists_eq_left, exists_conj_hoist,
          ImportState.allocElt, ImportState.allocCtx, ImportState.allocSheet,
          ImportState.allocVoice, ImportState.allocMark, ImportState.allocTuplet,
          ImportState.setElt, ImportState.setCtx, ImportState.setSheet, ImportState.setVoice,
          ImportState.setMark, ImportState.setTuplet, ImportState.setEltColor, applySlurAttrs,
          importMark, importResource, ImportState.noteStaffOf] at h)
      | (split at h)
      | (obtain ⟨w, e1, h⟩ := h))
    all_goals (first
      | (subst_vars; exact ⟨rfl, rfl⟩)
      | (rw [← e1]; exact ⟨rfl, rfl⟩)
      | (rw [← h]; exact ⟨rfl, rfl⟩)
      | (subst h; subst_vars; exact ⟨rfl, rfl⟩)
      | simp_all)
  rw [if_neg h4] at h
  by_cases h5 : q = "figured-bass-context"
  · rw [if_pos h5] at h
    repeat' (first
      | (simp only [Option.bind_eq_bind', Option.bind_eq_some', Option.bind_eq_some,
          Option.some.injEq, Option.some_bind, Option.none_bind,
          List.getElem?_concat_length, set_concat_self,
          and_assoc, exists_and_left, exists_eq_left', exists_eq_left, exists_conj_hoist,
          ImportState.allocElt, ImportState.allocCtx, ImportState.allocSheet,
          ImportState.allocVoice, ImportState.allocMark, ImportState.allocTuplet,
          ImportState.setElt, ImportState.setCtx, ImportState.setSheet, ImportState.setVoice,
          ImportState.setMark, ImportState.setTuplet, ImportState.setEltColor, applySlurAttrs,
          importMark, importResource, ImportState.noteStaffOf] at h)
      | (split at h)
      | (obtain ⟨w, e1, h⟩ := h))
    all_goals (first
      | (subst_vars; exact ⟨rfl, rfl⟩)
      | (rw [← e1]; exact ⟨rfl, rfl⟩)
      | (rw [← h]; exact ⟨rfl, rfl⟩)
      | (subst h; subst_vars; exact ⟨rfl, rfl⟩)
      | simp_all)
  rw [if_neg h5] at h
  by_cases h6 : q = "function-mark-context" ∨ q = "function-marking-context"
  · rw [if_pos h6] at h
    repeat' (first
      | (simp only [Option.bind_eq_bind', Option.bind_eq_some', Option.bind_eq_some,
          Option.some.injEq, Option.some_bind, Option.none_bind,
          List.getElem?_concat_length, set_concat_self,
          and_assoc, exists_and_left, exists_eq_left', exists_eq_left, exists_conj_hoist,
          ImportState.allocElt, ImportState.allocCtx, ImportState.allocSheet,
          ImportState.allocVoice, ImportState.allocMark, ImportState.allocTuplet,
          ImportState.setElt, ImportState.setCtx, ImportState.setSheet, ImportState.setVoice,
          ImportState.setMark, ImportState.setTuplet, ImportState.setEltColor, applySlurAttrs,
          importMark, importResource, ImportState.noteStaffOf] at h)
      | (split at h)
      | (obtain ⟨w, e1, h⟩ := h))
    all_goals (first
      | (subst_vars; exact ⟨rfl, rfl⟩)
      | (rw [← e1]; exact ⟨rfl, rfl⟩)
      | (rw [← h]; exact ⟨rfl, rfl⟩)
      | (subst h; subst_vars; exact ⟨rfl, rfl⟩)
      | simp_all)
  rw [if_neg h6] at h
  by_cases h7 : q = "chord-name-context"
  · rw [if_pos h7] at h
    repeat' (first
      | (simp only [Option.bind_eq_bind', Option.bind_eq_some', Option.bind_eq_some,
          Option.some.injEq, Option.some_bind, Option.none_bind,
          List.getElem?_concat_length, set_concat_self,
          and_assoc, exists_and_left, exists_eq_left', exists_eq_left, exists_conj_hoist,
          ImportState.allocElt, ImportState.allocCtx, ImportState.allocSheet,
          ImportState.allocVoice, ImportState.allocMark, ImportState.allocTuplet,
          ImportState.setElt, ImportState.setCtx, ImportState.setSheet, ImportState.setVoice,
          ImportState.setMark, ImportState.setTuplet, ImportState.setEltColor, applySlurAttrs,
          importMark, importResource, ImportState.noteStaffOf] at h)
      | (split at h)
      | (obtain ⟨w, e1, h⟩ := h))
    all_goals (first
      | (subst_vars; exact ⟨rfl, rfl⟩)
      | (rw [← e1]; exact ⟨rfl, rfl⟩)
      | (rw [← h]; exact ⟨rfl, rfl⟩)
      | (subst h; subst_vars; exact ⟨rfl, rfl⟩)
      | simp_all)
  rw [if_neg h7] at h
  by_cases h8 : q = "voice"
  · rw [if_pos h8] at h
    repeat' (first
      | (simp only [Option.bind_eq_bind', Option.bind_eq_some', Option.bind_eq_some,
          Option.some.injEq, Option.some_bind, Option.none_bind,
          List.getElem?_concat_length, set_concat_self,
          and_assoc, exists_and_left, exists_eq_left', exists_eq_left, exists_conj_hoist,
          ImportState.allocElt, ImportState.allocCtx, ImportState.allocSheet,
          ImportState.allocVoice, ImportState.allocMark, ImportState.allocTuplet,
          ImportState.setElt, ImportState.setCtx, ImportState.setSheet, ImportState.setVoice,
          ImportState.setMark, ImportState.setTuplet, ImportState.setEltColor, applySlurAttrs,
          importMark, importResource, ImportState.noteStaffOf] at h)
      | (split at h)
      | (obtain ⟨w, e1, h⟩ := h))
    all_goals (first
      | (subst_vars; exact ⟨rfl, rfl⟩)
      | (rw [← e1]; exact ⟨rfl, rfl⟩)
      | (rw [← h]; exact ⟨rfl, rfl⟩)
      | (subst h; subst_vars; exact ⟨rfl, rfl⟩)
      | simp_all)
  rw [if_neg h8] at h
  by_cases h9 : q = "clef"
  · rw [if_pos h9] at h
    repeat' (first
      | (simp only [Option.bind_eq_bind', Option.bind_eq_some', Option.bind_eq_some,
          Option.some.injEq, Option.some_bind, Option.none_bind,
          List.getElem?_concat_length, set_concat_self,
          and_assoc, exists_and_left, exists_eq_left', exists_eq_left, exists_conj_hoist,
          ImportState.allocElt, ImportState.allocCtx, ImportState.allocSheet,
          ImportState.allocVoice, ImportState.allocMark, ImportState.allocTuplet,
          ImportState.setElt, ImportState.setCtx, ImportState.setSheet, ImportState.setVoice,
          ImportState.setMark, ImportState.setTuplet, ImportState.setEltColor, applySlurAttrs,
          importMark, importResource, ImportState.noteStaffOf] at h)
      | (split at h)
      | (obtain ⟨w, e1, h⟩ := h))
    all_goals (first
      | (subst_vars; exact ⟨rfl, rfl⟩)
      | (rw [← e1]; exact ⟨rfl, rfl⟩)
      | (rw [← h]; exact ⟨rfl, rfl⟩)
      | (subst h; subst_vars; exact ⟨rfl, rfl⟩)
      | simp_all)
  rw [if_neg h9] at h
  by_cases h10 : q = "time-signature"
  · rw [if_pos h10] at h
    repeat' (first
      | (simp only [Option.bind_eq_bind', Option.bind_eq_some', Option.bind_eq_some,
          Option.some.injEq, Option.some_bind, Option.none_bind,
          List.getElem?_concat_length, set_concat_self,
          and_assoc, exists_and_left, exists_eq_left', exists_eq_left, exists_conj_hoist,
          ImportState.allocElt, ImportState.allocCtx, ImportState.allocSheet,
          ImportState.allocVoice, ImportState.allocMark, ImportState.allocTuplet,
          ImportState.setElt, ImportState.setCtx, ImportState.setSheet, ImportState.setVoice,
          ImportState.setMark, ImportState.setTuplet, ImportState.setEltColor, applySlurAttrs,
          importMark, importResource, ImportState.noteStaffOf] at h)
      | (split at h)
      | (obtain ⟨w, e1, h⟩ := h))
    all_goals (first
      | (subst_vars; exact ⟨rfl, rfl⟩)
      | (rw [← e1]; exact ⟨rfl, rfl⟩)
      | (rw [← h]; exact ⟨rfl, rfl⟩)
      | (subst h; subst_vars; exact ⟨rfl, rfl⟩)
      | simp_all)
  rw [if_neg h10] at h
  by_cases h11 : q = "key-signature"
  · rw [if_pos h11] at h
    repeat' (first
      | (simp only [Option.bind_eq_bind', Option.bind_eq_some', Option.bind_eq_some,
          Option.some.injEq, Option.some_bind, Option.none_bind,
          List.getElem?_concat_length, set_concat_self,
          and_assoc, exists_and_left, exists_eq_left', exists_eq_left, exists_conj_hoist,
          ImportState.allocElt, ImportState.allocCtx, ImportState.allocSheet,
          ImportState.allocVoice, ImportState.allocMark, ImportState.allocTuplet,
          ImportState.setElt, ImportState.setCtx, ImportState.setSheet, ImportState.setVoice,
          ImportState.setMark, ImportState.setTuplet, ImportState.setEltColor, applySlurAttrs,
          importMark, importResource, ImportState.noteStaffOf] at h)
      | (split at h)
      | (obtain ⟨w, e1, h⟩ := h))
    all_goals (first
      | (subst_vars; exact ⟨rfl, rfl⟩)
      | (rw [← e1]; exact ⟨rfl, rfl⟩)
      | (rw [← h]; exact ⟨rfl, rfl⟩)
      | (subst h; subst_vars; exact ⟨rfl, rfl⟩)
      | simp_all)
  rw [if_neg h11] at h
  by_cases h12 : q = "barline"
  · rw [if_pos h12] at h
    repeat' (first
      | (simp only [Option.bind_eq_bind', Option.bind_eq_some', Option.bind_eq_some,
          Option.some.injEq, Option.some_bind, Option.none_bind,
          List.getElem?_concat_length, set_concat_self,
          and_assoc, exists_and_left, exists_eq_left', exists_eq_left, exists_conj_hoist,
          ImportState.allocElt, ImportState.allocCtx, ImportState.allocSheet,
          ImportState.allocVoice, ImportState.allocMark, ImportState.allocTuplet,
          ImportState.setElt, ImportState.setCtx, ImportState.setSheet, ImportState.setVoice,
          ImportState.setMark, ImportState.setTuplet, ImportState.setEltColor, applySlurAttrs,
          importMark, importResource, ImportState.noteStaffOf] at h)
      | (split at h)
      | (obtain ⟨w, e1, h⟩ := h))
    all_goals (first
      | (subst_vars; exact ⟨rfl, rfl⟩)
      | (rw [← e1]; exact ⟨rfl, rfl⟩)
      | (rw [← h]; exact ⟨rfl, rfl⟩)
      | (subst h; subst_vars; exact ⟨rfl, rfl⟩)
      | simp_all)
  rw [if_neg h12] at h
  unfold startBranch2 at h
  by_cases k1 : q = "note"
  · rw [if_pos k1] at h
    repeat' (first
      | (simp only [Option.bind_eq_bind', Option.bind_eq_some', Option.bind_eq_some,
          Option.some.injEq, Option.some_bind, Option.none_bind,
          List.getElem?_concat_length, set_concat_self,
          and_assoc, exists_and_left, exists_eq_left', exists_eq_left, exists_conj_hoist,
          ImportState.allocElt, ImportState.allocCtx, ImportState.allocSheet,
          ImportState.allocVoice, ImportState.allocMark, ImportState.allocTuplet,
          ImportState.setElt, ImportState.setCtx, ImportState.setSheet, ImportState.setVoice,
          ImportState.setMark, ImportState.setTuplet, ImportState.setEltColor, applySlurAttrs,
          importMark, importResource, ImportState.noteStaffOf] at h)
      | (split at h)
      | (obtain ⟨w, e1, h⟩ := h))
    all_goals (first
      | (subst_vars; exact ⟨rfl, rfl⟩)
      | (rw [← e1]; exact ⟨rfl, rfl⟩)
      | (rw [← h]; exact ⟨rfl, rfl⟩)
      | (subst h; subst_vars; exact ⟨rfl, rfl⟩)
      | simp_all)
  rw [if_neg k1] at h
  by_cases k2 : q = "tie"
  · rw [if_pos k2] at h
    repeat' (first
      | (simp only [Option.bind_eq_bind', Option.bind_eq_some', Option.bind_eq_some,
          Option.some.injEq, Option.some_bind, Option.none_bind,
          List.getElem?_concat_length, set_concat_self,
          and_assoc, exists_and_left, exists_eq_left', exists_eq_left, exists_conj_hoist,
          ImportState.allocElt, ImportState.allocCtx, ImportState.allocSheet,
          ImportState.allocVoice, ImportState.allocMark, ImportState.allocTuplet,
          ImportState.setElt, ImportState.setCtx, ImportState.setSheet, ImportState.setVoice,
          ImportState.setMark, ImportState.setTuplet, ImportState.setEltColor, applySlurAttrs,
          importMark, importResource, ImportState.noteStaffOf] at h)
      | (split at h)
      | (obtain ⟨w, e1, h⟩ := h))
    all_goals (first
      | (subst_vars; exact ⟨rfl, rfl⟩)
      | (rw [← e1]; exact ⟨rfl, rfl⟩)
      | (rw [← h]; exact ⟨rfl, rfl⟩)
      | (subst h; subst_vars; exact ⟨rfl, rfl⟩)
      | simp_all)
  rw [if_neg k2] at h
  by_cases k3 : q = "slur-start"
  · rw [if_pos k3] at h
    repeat' (first
      | (simp only [Option.bind_eq_bind', Option.bind_eq_some', Option.bind_eq_some,
          Option.some.injEq, Option.some_bind, Option.none_bind,
          List.getElem?_concat_length, set_concat_self,
          and_assoc, exists_and_left, exists_eq_left', exists_eq_left, exists_conj_hoist,
          ImportState.allocElt, ImportState.allocCtx, ImportState.allocSheet,
          ImportState.allocVoice, ImportState.allocMark, ImportState.allocTuplet,
          ImportState.setElt, ImportState.setCtx, ImportState.setSheet, ImportState.setVoice,
          ImportState.setMark, ImportState.setTuplet, ImportState.setEltColor, applySlurAttrs,
          importMark, importResource, ImportState.noteStaffOf] at h)
      | (split at h)
      | (obtain ⟨w, e1, h⟩ := h))
    all_goals (first
      | (subst_vars; exact ⟨rfl, rfl⟩)
      | (rw [← e1]; exact ⟨rfl, rfl⟩)
      | (rw [← h]; exact ⟨rfl, rfl⟩)
      | (subst h; subst_vars; exact ⟨rfl, rfl⟩)
      | simp_all)
  rw [if_neg k3] at h
  by_cases k4 : q = "slur-end"
  · rw [if_pos k4] at h
    repeat' (first
      | (simp only [Option.bind_eq_bind', Option.bind_eq_some', Option.bind_eq_some,
          Option.some.injEq, Option.some_bind, Option.none_bind,
          List.getElem?_concat_length, set_concat_self,
          and_assoc, exists_and_left, exists_eq_left', exists_eq_left, exists_conj_hoist,
          ImportState.allocElt, ImportState.allocCtx, ImportState.allocSheet,
          ImportState.allocVoice, ImportState.allocMark, ImportState.allocTuplet,
          ImportState.setElt, ImportState.setCtx, ImportState.setSheet, ImportState.setVoice,
          ImportState.setMark, ImportState.setTuplet, ImportState.setEltColor, applySlurAttrs,
          importMark, importResource, ImportState.noteStaffOf] at h)
      | (split at h)
      | (obtain ⟨w, e1, h⟩ := h))
    all_goals (first
      | (subst_vars; exact ⟨rfl, rfl⟩)
      | (rw [← e1]; exact ⟨rfl, rfl⟩)
      | (rw [← h]; exact ⟨rfl, rfl⟩)
      | (subst h; subst_vars; exact ⟨rfl, rfl⟩)
      | simp_all)
  rw [if_neg k4] at h
  by_cases k5 : q = "phrasing-slur-start"
  · rw [if_pos k5] at h
    repeat' (first
      | (simp only [Option.bind_eq_bind', Option.bind_eq_some', Option.bind_eq_some,
          Option.some.injEq, Option.some_bind, Option.none_bind,
          List.getElem?_concat_length, set_concat_self,
          and_assoc, exists_and_left, exists_eq_left', exists_eq_left, exists_conj_hoist,
          ImportState.allocElt, ImportState.allocCtx, ImportState.allocSheet,
          ImportState.allocVoice, ImportState.allocMark, ImportState.allocTuplet,
          ImportState.setElt, ImportState.setCtx, ImportState.setSheet, ImportState.setVoice,
          ImportState.setMark, ImportState.setTuplet, ImportState.setEltColor, applySlurAttrs,
          importMark, importResource, ImportState.noteStaffOf] at h)
      | (split at h)
      | (obtain ⟨w, e1, h⟩ := h))
    all_goals (first
      | (subst_vars; exact ⟨rfl, rfl⟩)
      | (rw [← e1]; exact ⟨rfl, rfl⟩)
      | (rw [← h]; exact ⟨rfl, rfl⟩)
      | (subst h; subst_vars; exact ⟨rfl, rfl⟩)
      | simp_all)
  rw [if_neg k5] at h
  by_cases k6 : q = "phrasing-slur-end"
  · rw [if_pos k6] at h
    repeat' (first
      | (simp only [Option.bind_eq_bind', Option.bind_eq_some', Option.bind_eq_some,
          Option.some.injEq, Option.some_bind, Option.none_bind,
          List.getElem?_concat_length, set_concat_self,
          and_assoc, exists_and_left, exists_eq_left', exists_eq_left, exists_conj_hoist,
          ImportState.allocElt, ImportState.allocCtx, ImportState.allocSheet,
          ImportState.allocVoice, ImportState.allocMark, ImportState.allocTuplet,
          ImportState.setElt, ImportState.setCtx, ImportState.setSheet, ImportState.setVoice,
          ImportState.setMark, ImportState.setTuplet, ImportState.setEltColor, applySlurAttrs,
          importMark, importResource, ImportState.noteStaffOf] at h)
      | (split at h)
      | (obtain ⟨w, e1, h⟩ := h))
    all_goals (first
      | (subst_vars; exact ⟨rfl, rfl⟩)
      | (rw [← e1]; exact ⟨rfl, rfl⟩)
      | (rw [← h]; exact ⟨rfl, rfl⟩)
      | (subst h; subst_vars; exact ⟨rfl, rfl⟩)
      | simp_all)
  rw [if_neg k6] at h
  by_cases k7 : q = "tuplet"
  · rw [if_pos k7] at h
    repeat' (first
      | (simp only [Option.bind_eq_bind', Option.bind_eq_some', Option.bind_eq_some,
          Option.some.injEq, Option.some_bind, Option.none_bind,
          List.getElem?_concat_length, set_concat_self,
          and_assoc, exists_and_left, exists_eq_left', exists_eq_left, exists_conj_hoist,
          ImportState.allocElt, ImportState.allocCtx, ImportState.allocSheet,
          ImportState.allocVoice, ImportState.allocMark, ImportState.allocTuplet,
          ImportState.setElt, ImportState.setCtx, ImportState.setSheet, ImportState.setVoice,
          ImportState.setMark, ImportState.setTuplet, ImportState.setEltColor, applySlurAttrs,
          importMark, importResource, ImportState.noteStaffOf] at h)
      | (split at h)
      | (obtain ⟨w, e1, h⟩ := h))
    all_goals (first
      | (subst_vars; exact ⟨rfl, rfl⟩)
      | (rw [← e1]; exact ⟨rfl, rfl⟩)
      | (rw [← h]; exact ⟨rfl, rfl⟩)
      | (subst h; subst_vars; exact ⟨rfl, rfl⟩)
      | simp_all)
  rw [if_neg k7] at h
  by_cases k8 : q = "rest"
  · rw [if_pos k8] at h
    repeat' (first
      | (simp only [Option.bind_eq_bind', Option.bind_eq_some', Option.bind_eq_some,
          Option.some.injEq, Option.some_bind, Option.none_bind,
          List.getElem?_concat_length, set_concat_self,
          and_assoc, exists_and_left, exists_eq_left', exists_eq_left, exists_conj_hoist,
          ImportState.allocElt, ImportState.allocCtx, ImportState.allocSheet,
          ImportState.allocVoice, ImportState.allocMark, ImportState.allocTuplet,
          ImportState.setElt, ImportState.setCtx, ImportState.setSheet, ImportState.setVoice,
          ImportState.setMark, ImportState.setTuplet, ImportState.setEltColor, applySlurAttrs,
          importMark, importResource, ImportState.noteStaffOf] at h)
      | (split at h)
      | (obtain ⟨w, e1, h⟩ := h))
    all_goals (first
      | (subst_vars; exact ⟨rfl, rfl⟩)
      | (rw [← e1]; exact ⟨rfl, rfl⟩)
      | (rw [← h]; exact ⟨rfl, rfl⟩)
      | (subst h; subst_vars; exact ⟨rfl, rfl⟩)
      | simp_all)
  rw [if_neg k8] at h
  by_cases k9 : q = "syllable"
  · rw [if_pos k9] at h
    repeat' (first
      | (simp only [Option.bind_eq_bind', Option.bind_eq_some', Option.bind_eq_some,
          Option.some.injEq, Option.some_bind, Option.none_bind,
          List.getElem?_concat_length, set_concat_self,
          and_assoc, exists_and_left, exists_eq_left', exists_eq_left, exists_conj_hoist,
          ImportState.allocElt, ImportState.allocCtx, ImportState.allocSheet,
          ImportState.allocVoice, ImportState.allocMark, ImportState.allocTuplet,
          ImportState.setElt, ImportState.setCtx, ImportState.setSheet, ImportState.setVoice,
          ImportState.setMark, ImportState.setTuplet, ImportState.setEltColor, applySlurAttrs,
          importMark, importResource, ImportState.noteStaffOf] at h)
      | (split at h)
      | (obtain ⟨w, e1, h⟩ := h))
    all_goals (first
      | (subst_vars; exact ⟨rfl, rfl⟩)
      | (rw [← e1]; exact ⟨rfl, rfl⟩)
      | (rw [← h]; exact ⟨rfl, rfl⟩)
      | (subst h; subst_vars; exact ⟨rfl, rfl⟩)
      | simp_all)
  rw [if_neg k9] at h
  by_cases k10 : q = "figured-bass-mark"
  · rw [if_pos k10] at h
    repeat' (first
      | (simp only [Option.bind_eq_bind', Option.bind_eq_some', Option.bind_eq_some,
          Option.some.injEq, Option.some_bind, Option.none_bind,
          List.getElem?_concat_length, set_concat_self,
          and_assoc, exists_and_left, exists_eq_left', exists_eq_left, exists_conj_hoist,
          ImportState.allocElt, ImportState.allocCtx, ImportState.allocSheet,
          ImportState.allocVoice, ImportState.allocMark, ImportState.allocTuplet,
          ImportState.setElt, ImportState.setCtx, ImportState.setSheet, ImportState.setVoice,
          ImportState.setMark, ImportState.setTuplet, ImportState.setEltColor, applySlurAttrs,
          importMark, importResource, ImportState.noteStaffOf] at h)
      | (split at h)
      | (obtain ⟨w, e1, h⟩ := h))
    all_goals (first
      | (subst_vars; exact ⟨rfl, rfl⟩)
      | (rw [← e1]; exact ⟨rfl, rfl⟩)
      | (rw [← h]; exact ⟨rfl, rfl⟩)
      | (subst h; subst_vars; exact ⟨rfl, rfl⟩)
      | simp_all)
  rw [if_neg k10] at h
  by_cases k11 : q = "figured-bass-number"
  · rw [if_pos k11] at h
    repeat' (first
      | (simp only [Option.bind_eq_bind', Option.bind_eq_some', Option.bind_eq_some,
          Option.some.injEq, Option.some_bind, Option.none_bind,
          List.getElem?_concat_length, set_concat_self,
          and_assoc, exists_and_left, exists_eq_left', exists_eq_left, exists_conj_hoist,
          ImportState.allocElt, ImportState.allocCtx, ImportState.allocSheet,
          ImportState.allocVoice, ImportState.allocMark, ImportState.allocTuplet,
          ImportState.setElt, ImportState.setCtx, ImportState.setSheet, ImportState.setVoice,
          ImportState.setMark, ImportState.setTuplet, ImportState.setEltColor, applySlurAttrs,
          importMark, importResource, ImportState.noteStaffOf] at h)
      | (split at h)
      | (obtain ⟨w, e1, h⟩ := h))
    all_goals (first
      | (subst_vars; exact ⟨rfl, rfl⟩)
      | (rw [← e1]; exact ⟨rfl, rfl⟩)
      | (rw [← h]; exact ⟨rfl, rfl⟩)
      | (subst h; subst_vars; exact ⟨rfl, rfl⟩)
      | simp_all)
  rw [if_neg k11] at h
  by_cases k12 : q = "function-mark" ∨ (qvIsPrefixOf [0, 5] st.version = true ∧ q = "function-marking")
  · rw [if_pos k12] at h
    repeat' (first
      | (simp only [Option.bind_eq_bind', Option.bind_eq_some', Option.bind_eq_some,
          Option.some.injEq, Option.some_bind, Option.none_bind,
          List.getElem?_concat_length, set_concat_self,
          and_assoc, exists_and_left, exists_eq_left', exists_eq_left, exists_conj_hoist,
          ImportState.allocElt, ImportState.allocCtx, ImportState.allocSheet,
          ImportState.allocVoice, ImportState.allocMark, ImportState.allocTuplet,
          ImportState.setElt, ImportState.setCtx, ImportState.setSheet, ImportState.setVoice,
          ImportState.setMark, ImportState.setTuplet, ImportState.setEltColor, applySlurAttrs,
          importMark, importResource, ImportState.noteStaffOf] at h)
      | (split at h)
      | (obtain ⟨w, e1, h⟩ := h))
    all_goals (first
      | (subst_vars; exact ⟨rfl, rfl⟩)
      | (rw [← e1]; exact ⟨rfl, rfl⟩)
      | (rw [← h]; exact ⟨rfl, rfl⟩)
      | (subst h; subst_vars; exact ⟨rfl, rfl⟩)
      | simp_all)
  rw [if_neg k12] at h
  by_cases k13 : q = "chord-name"
  · rw [if_pos k13] at h
    repeat' (first
      | (simp only [Option.bind_eq_bind', Option.bind_eq_some', Option.bind_eq_some,
          Option.some.injEq, Option.some_bind, Option.none_bind,
          List.getElem?_concat_length, set_concat_self,
          and_assoc, exists_and_left, exists_eq_left', exists_eq_left, exists_conj_hoist,
          ImportState.allocElt, ImportState.allocCtx, ImportState.allocSheet,
          ImportState.allocVoice, ImportState.allocMark, ImportState.allocTuplet,
          ImportState.setElt, ImportState.setCtx, ImportState.setSheet, ImportState.setVoice,
          ImportState.setMark, ImportState.setTuplet, ImportState.setEltColor, applySlurAttrs,
          importMark, importResource, ImportState.noteStaffOf] at h)
      | (split at h)
      | (obtain ⟨w, e1, h⟩ := h))
    all_goals (first
      | (subst_vars; exact ⟨rfl, rfl⟩)
      | (rw [← e1]; exact ⟨rfl, rfl⟩)
      | (rw [← h]; exact ⟨rfl, rfl⟩)
      | (subst h; subst_vars; exact ⟨rfl, rfl⟩)
      | simp_all)
  rw [if_neg k13] at h
  by_cases k14 : q = "mark"
  · rw [if_pos k14] at h
    repeat' (first
      | (simp only [Option.bind_eq_bind', Option.bind_eq_some', Option.bind_eq_some,
          Option.some.injEq, Option.some_bind, Option.none_bind,
          List.getElem?_concat_length, set_concat_self,
          and_assoc, exists_and_left, exists_eq_left', exists_eq_left, exists_conj_hoist,
          ImportState.allocElt, ImportState.allocCtx, ImportState.allocSheet,
          ImportState.allocVoice, ImportState.allocMark, ImportState.allocTuplet,
          ImportState.setElt, ImportState.setCtx, ImportState.setSheet, ImportState.setVoice,
          ImportState.setMark, ImportState.setTuplet, ImportState.setEltColor, applySlurAttrs,
          importMark, importResource, ImportState.noteStaffOf] at h)
      | (split at h)
      | (obtain ⟨w, e1, h⟩ := h))
    all_goals (first
      | (subst_vars; exact ⟨rfl, rfl⟩)
      | (rw [← e1]; exact ⟨rfl, rfl⟩)
      | (rw [← h]; exact ⟨rfl, rfl⟩)
      | (subst h; subst_vars; exact ⟨rfl, rfl⟩)
      | simp_all)
  rw [if_neg k14] at h
  by_cases k15 : q = "playable-length"
  · rw [if_pos k15] at h
    repeat' (first
      | (simp only [Option.bind_eq_bind', Option.bind_eq_some', Option.bind_eq_some,
          Option.some.injEq, Option.some_bind, Option.none_bind,
          List.getElem?_concat_length, set_concat_self,
          and_assoc, exists_and_left, exists_eq_left', exists_eq_left, exists_conj_hoist,
          ImportState.allocElt, ImportState.allocCtx, ImportState.allocSheet,
          ImportState.allocVoice, ImportState.allocMark, ImportState.allocTuplet,
          ImportState.setElt, ImportState.setCtx, ImportState.setSheet, ImportState.setVoice,
          ImportState.setMark, ImportState.setTuplet, ImportState.setEltColor, applySlurAttrs,
          importMark, importResource, ImportState.noteStaffOf] at h)
      | (split at h)
      | (obtain ⟨w, e1, h⟩ := h))
    all_goals (first
      | (subst_vars; exact ⟨rfl, rfl⟩)
      | (rw [← e1]; exact ⟨rfl, rfl⟩)
      | (rw [← h]; exact ⟨rfl, rfl⟩)
      | (subst h; subst_vars; exact ⟨rfl, rfl⟩)
      | simp_all)
  rw [if_neg k15] at h
  by_cases k16 : q = "diatonic-pitch"
  · rw [if_pos k16] at h
    repeat' (first
      | (simp only [Option.bind_eq_bind', Option.bind_eq_some', Option.bind_eq_some,
          Option.some.injEq, Option.some_bind, Option.none_bind,
          List.getElem?_concat_length, set_concat_self,
          and_assoc, exists_and_left, exists_eq_left', exists_eq_left, exists_conj_hoist,
          ImportState.allocElt, ImportState.allocCtx, ImportState.allocSheet,
          ImportState.allocVoice, ImportState.allocMark, ImportState.allocTuplet,
          ImportState.setElt, ImportState.setCtx, ImportState.setSheet, ImportState.setVoice,
          ImportState.setMark, ImportState.setTuplet, ImportState.setEltColor, applySlurAttrs,
          importMark, importResource, ImportState.noteStaffOf] at h)
      | (split at h)
      | (obtain ⟨w, e1, h⟩ := h))
    all_goals (first
      | (subst_vars; exact ⟨rfl, rfl⟩)
      | (rw [← e1]; exact ⟨rfl, rfl⟩)
      | (rw [← h]; exact ⟨rfl, rfl⟩)
      | (subst h; subst_vars; exact ⟨rfl, rfl⟩)
      | simp_all)
  rw [if_neg k16] at h
  by_cases k17 : q = "diatonic-key"
  · rw [if_pos k17] at h
    repeat' (first
      | (simp only [Option.bind_eq_bind', Option.bind_eq_some', Option.bind_eq_some,
          Option.some.injEq, Option.some_bind, Option.none_bind,
          List.getElem?_concat_length, set_concat_self,
          and_assoc, exists_and_left, exists_eq_left', exists_eq_left, exists_conj_hoist,
          ImportState.allocElt, ImportState.allocCtx, ImportState.allocSheet,
          ImportState.allocVoice, ImportState.allocMark, ImportState.allocTuplet,
          ImportState.setElt, ImportState.setCtx, ImportState.setSheet, ImportState.setVoice,
          ImportState.setMark, ImportState.setTuplet, ImportState.setEltColor, applySlurAttrs,
          importMark, importResource, ImportState.noteStaffOf] at h)
      | (split at h)
      | (obtain ⟨w, e1, h⟩ := h))
    all_goals (first
      | (subst_vars; exact ⟨rfl, rfl⟩)
      | (rw [← e1]; exact ⟨rfl, rfl⟩)
      | (rw [← h]; exact ⟨rfl, rfl⟩)
      | (subst h; subst_vars; exact ⟨rfl, rfl⟩)
      | simp_all)
  rw [if_neg k17] at h
  by_cases k18 : q = "resource"
  · rw [if_pos k18] at h
    repeat' (first
      | (simp only [Option.bind_eq_bind', Option.bind_eq_some', Option.bind_eq_some,
          Option.some.injEq, Option.some_bind, Option.none_bind,
          List.getElem?_concat_length, set_concat_self,
          and_assoc, exists_and_left, exists_eq_left', exists_eq_left, exists_conj_hoist,
          ImportState.allocElt, ImportState.allocCtx, ImportState.allocSheet,
          ImportState.allocVoice, ImportState.allocMark, ImportState.allocTuplet,
          ImportState.setElt, ImportState.setCtx, ImportState.setSheet, ImportState.setVoice,
          ImportState.setMark, ImportState.setTuplet, ImportState.setEltColor, applySlurAttrs,
          importMark, importResource, ImportState.noteStaffOf] at h)
      | (split at h)
      | (obtain ⟨w, e1, h⟩ := h))
    all_goals (first
      | (subst_vars; exact ⟨rfl, rfl⟩)
      | (rw [← e1]; exact ⟨rfl, rfl⟩)
      | (rw [← h]; exact ⟨rfl, rfl⟩)
      | (subst h; subst_vars; exact ⟨rfl, rfl⟩)
      | simp_all)
  rw [if_neg k18] at h
  injection h with h
  subst h
  exact ⟨rfl, rfl⟩

set_option maxHeartbeats 4000000 in
theorem endBranch_preserves (st : ImportState) (q : String)
    (r : Bool × ImportState) (h : endBranch st q = some r) :
    r.2.depth = st.depth ∧ r.2.cha = st.cha := by
  unfold endBranch at h
  by_cases g1 : q = "canorus-version"
  · rw [if_pos g1] at h
    repeat' (first
      | (simp only [Option.bind_eq_bind', Option.bind_eq_some', Option.bind_eq_some,
          Option.some.injEq, Option.some_bind, Option.none_bind,
          List.getElem?_concat_length, set_concat_self,
          and_assoc, exists_and_left, exists_eq_left', exists_eq_left, exists_conj_hoist,
          ImportState.appendToVoice,
          ImportState.setElt, ImportState.setCtx, ImportState.setSheet, ImportState.setVoice,
          ImportState.setMark, ImportState.setTuplet] at h)
      | (split at h)
      | (obtain ⟨w, e1, h⟩ := h))
    all_goals (first
      | (subst_vars; exact ⟨rfl, rfl⟩)
      | (rw [← e1]; exact ⟨rfl, rfl⟩)
      | (rw [← h]; exact ⟨rfl, rfl⟩)
      | (rw [← h]; simp_all)
      | (rw [← e1]; simp_all)
      | simp_all)
  rw [if_neg g1] at h
  by_cases g2 : q = "document"
  · rw [if_pos g2] at h
    repeat' (first
      | (simp only [Option.bind_eq_bind', Option.bind_eq_some', Option.bind_eq_some,
          Option.some.injEq, Option.some_bind, Option.none_bind,
          List.getElem?_concat_length, set_concat_self,
          and_assoc, exists_and_left, exists_eq_left', exists_eq_left, exists_conj_hoist,
          ImportState.appendToVoice,
          ImportState.setElt, ImportState.setCtx, ImportState.setSheet, ImportState.setVoice,
          ImportState.setMark, ImportState.setTuplet] at h)
      | (split at h)
      | (obtain ⟨w, e1, h⟩ := h))
    all_goals (first
      | (subst_vars; exact ⟨rfl, rfl⟩)
      | (rw [← e1]; exact ⟨rfl, rfl⟩)
      | (rw [← h]; exact ⟨rfl, rfl⟩)
      | (rw [← h]; simp_all)
      | (rw [← e1]; simp_all)
      | simp_all)
  rw [if_neg g2] at h
  by_cases g3 : q = "sheet"
  · rw [if_pos g3] at h
    rw [Option.bind_eq_bind', Option.bind_eq_some'] at h
    obtain ⟨shId, h1, h⟩ := h
    rw [Option.bind_eq_bind', Option.bind_eq_some'] at h
    obtain ⟨sh, h2, h⟩ := h
    rw [Option.bind_eq_bind', Option.bind_eq_some'] at h
    obtain ⟨st1, h3, h⟩ := h
    rw [Option.bind_eq_bind', Option.bind_eq_some'] at h
    obtain ⟨st2, h4, h⟩ := h
    simp only [Option.some.injEq] at h
    have d1 := foldlM_proj (fun s => (s.depth, s.cha))
      (fun s p s' hh => assignLcVoice_proj (fun s => (s.depth, s.cha)) (fun _ _ _ => rfl) _ _ _ _ hh)
      st.lcMap st st1 h3
    have d2 := foldlM_proj (fun s => (s.depth, s.cha))
      (fun s p s' hh => assignSylVoice_proj (fun s => (s.depth, s.cha)) (fun _ _ _ => rfl) _ _ _ _ hh)
      st1.syllableMap st1 st2 h4
    simp only [Prod.mk.injEq] at d1 d2
    rw [← h]
    exact ⟨by rw [d2.1, d1.1], by rw [d2.2, d1.2]⟩
  rw [if_neg g3] at h
  by_cases g4 : q = "staff"
  · rw [if_pos g4] at h
    repeat' (first
      | (simp only [Option.bind_eq_bind', Option.bind_eq_some', Option.bind_eq_some,
          Option.some.injEq, Option.some_bind, Option.none_bind,
          List.getElem?_concat_length, set_concat_self,
          and_assoc, exists_and_left, exists_eq_left', exists_eq_left, exists_conj_hoist,
          ImportState.appendToVoice,
          ImportState.setElt, ImportState.setCtx, ImportState.setSheet, ImportState.setVoice,
          ImportState.setMark, ImportState.setTuplet] at h)
      | (split at h)
      | (obtain ⟨w, e1, h⟩ := h))
    all_goals (first
      | (subst_vars; exact ⟨rfl, rfl⟩)
      | (rw [← e1]; exact ⟨rfl, rfl⟩)
      | (rw [← h]; exact ⟨rfl, rfl⟩)
      | (rw [← h]; simp_all)
      | (rw [← e1]; simp_all)
      | simp_all)
  rw [if_neg g4] at h
  by_cases g5 : q = "voice"
  · rw [if_pos g5] at h
    repeat' (first
      | (simp only [Option.bind_eq_bind', Option.bind_eq_some', Option.bind_eq_some,
          Option.some.injEq, Option.some_bind, Option.none_bind,
          List.getElem?_concat_length, set_concat_self,
          and_assoc, exists_and_left, exists_eq_left', exists_eq_left, exists_conj_hoist,
          ImportState.appendToVoice,
          ImportState.setElt, ImportState.setCtx, ImportState.setSheet, ImportState.setVoice,
          ImportState.setMark, ImportState.setTuplet] at h)
      | (split at h)
      | (obtain ⟨w, e1, h⟩ := h))
    all_goals (first
      | (subst_vars; exact ⟨rfl, rfl⟩)
      | (rw [← e1]; exact ⟨rfl, rfl⟩)
      | (rw [← h]; exact ⟨rfl, rfl⟩)
      | (rw [← h]; simp_all)
      | (rw [← e1]; simp_all)
      | simp_all)
  rw [if_neg g5] at h
  by_cases g6 : q = "clef"
  · rw [if_pos g6] at h
    exact closeSign_preserves _ _ _ _ r h (fun s => ⟨rfl, rfl⟩)
  rw [if_neg g6] at h
  by_cases g7 : q = "key-signature"
  · rw [if_pos g7] at h
    split at h
    · rw [Option.bind_eq_bind', Option.bind_eq_some'] at h
      obtain ⟨ctx, hc, h⟩ := h
      split at h
      · rw [Option.bind_eq_bind', Option.bind_eq_some'] at h
        obtain ⟨sid, hs, h⟩ := h
        rw [Option.bind_eq_bind', Option.bind_eq_some'] at h
        obtain ⟨e, he, h⟩ := h
        split at h
        all_goals (
          have h2 := closeSign_preserves _ _ _ _ r h (fun s => ⟨rfl, rfl⟩)
          simpa [ImportState.setElt] using h2)
      · simp only [Option.some.injEq] at h
        rw [← h]
        exact ⟨rfl, rfl⟩
    · simp only [Option.some.injEq] at h
      rw [← h]
      exact ⟨rfl, rfl⟩
  rw [if_neg g7] at h
  by_cases g8 : q = "time-signature"
  · rw [if_pos g8] at h
    exact closeSign_preserves _ _ _ _ r h (fun s => ⟨rfl, rfl⟩)
  rw [if_neg g8] at h
  by_cases g9 : q = "barline"
  · rw [if_pos g9] at h
    exact closeSign_preserves _ _ _ _ r h (fun s => ⟨rfl, rfl⟩)
  rw [if_neg g9] at h
  by_cases g10 : q = "note"
  · rw [if_pos g10] at h
    repeat' (first
      | (simp only [Option.bind_eq_bind', Option.bind_eq_some', Option.bind_eq_some,
          Option.some.injEq, Option.some_bind, Option.none_bind,
          List.getElem?_concat_length, set_concat_self,
          and_assoc, exists_and_left, exists_eq_left', exists_eq_left, exists_conj_hoist,
          ImportState.appendToVoice,
          ImportState.setElt, ImportState.setCtx, ImportState.setSheet, ImportState.setVoice,
          ImportState.setMark, ImportState.setTuplet] at h)
      | (split at h)
      | (obtain ⟨w, e1, h⟩ := h))
    all_goals (first
      | (subst_vars; exact ⟨rfl, rfl⟩)
      | (rw [← e1]; exact ⟨rfl, rfl⟩)
      | (rw [← h]; exact ⟨rfl, rfl⟩)
      | (rw [← h]; simp_all)
      | (rw [← e1]; simp_all)
      | simp_all)
  rw [if_neg g10] at h
  by_cases g11 : q = "tie"
  · rw [if_pos g11] at h
    repeat' (first
      | (simp only [Option.bind_eq_bind', Option.bind_eq_some', Option.bind_eq_some,
          Option.some.injEq, Option.some_bind, Option.none_bind,
          List.getElem?_concat_length, set_concat_self,
          and_assoc, exists_and_left, exists_eq_left', exists_eq_left, exists_conj_hoist,
          ImportState.appendToVoice,
          ImportState.setElt, ImportState.setCtx, ImportState.setSheet, ImportState.setVoice,
          ImportState.setMark, ImportState.setTuplet] at h)
      | (split at h)
      | (obtain ⟨w, e1, h⟩ := h))
    all_goals (first
      | (subst_vars; exact ⟨rfl, rfl⟩)
      | (rw [← e1]; exact ⟨rfl, rfl⟩)
      | (rw [← h]; exact ⟨rfl, rfl⟩)
      | (rw [← h]; simp_all)
      | (rw [← e1]; simp_all)
      | simp_all)
  rw [if_neg g11] at h
  by_cases g12 : q = "tuplet"
  · rw [if_pos g12] at h
    repeat' (first
      | (simp only [Option.bind_eq_bind', Option.bind_eq_some', Option.bind_eq_some,
          Option.some.injEq, Option.some_bind, Option.none_bind,
          List.getElem?_concat_length, set_concat_self,
          and_assoc, exists_and_left, exists_eq_left', exists_eq_left, exists_conj_hoist,
          ImportState.appendToVoice,
          ImportState.setElt, ImportState.setCtx, ImportState.setSheet, ImportState.setVoice,
          ImportState.setMark, ImportState.setTuplet] at h)
      | (split at h)
      | (obtain ⟨w, e1, h⟩ := h))
    all_goals (first
      | (subst_vars; exact ⟨rfl, rfl⟩)
      | (rw [← e1]; exact ⟨rfl, rfl⟩)
      | (rw [← h]; exact ⟨rfl, rfl⟩)
      | (rw [← h]; simp_all)
      | (rw [← e1]; simp_all)
      | simp_all)
  rw [if_neg g12] at h
  by_cases g13 : q = "rest"
  · rw [if_pos g13] at h
    repeat' (first
      | (simp only [Option.bind_eq_bind', Option.bind_eq_some', Option.bind_eq_some,
          Option.some.injEq, Option.some_bind, Option.none_bind,
          List.getElem?_concat_length, set_concat_self,
          and_assoc, exists_and_left, exists_eq_left', exists_eq_left, exists_conj_hoist,
          ImportState.appendToVoice,
          ImportState.setElt, ImportState.setCtx, ImportState.setSheet, ImportState.setVoice,
          ImportState.setMark, ImportState.setTuplet] at h)
      | (split at h)
      | (obtain ⟨w, e1, h⟩ := h))
    all_goals (first
      | (subst_vars; exact ⟨rfl, rfl⟩)
      | (rw [← e1]; exact ⟨rfl, rfl⟩)
      | (rw [← h]; exact ⟨rfl, rfl⟩)
      | (rw [← h]; simp_all)
      | (rw [← e1]; simp_all)
      | simp_all)
  rw [if_neg g13] at h
  by_cases g14 : q = "mark"
  · rw [if_pos g14] at h
    repeat' (first
      | (simp only [Option.bind_eq_bind', Option.bind_eq_some', Option.bind_eq_some,
          Option.some.injEq, Option.some_bind, Option.none_bind,
          List.getElem?_concat_length, set_concat_self,
          and_assoc, exists_and_left, exists_eq_left', exists_eq_left, exists_conj_hoist,
          ImportState.appendToVoice,
          ImportState.setElt, ImportState.setCtx, ImportState.setSheet, ImportState.setVoice,
          ImportState.setMark, ImportState.setTuplet] at h)
      | (split at h)
      | (obtain ⟨w, e1, h⟩ := h))
    all_goals (first
      | (subst_vars; exact ⟨rfl, rfl⟩)
      | (rw [← e1]; exact ⟨rfl, rfl⟩)
      | (rw [← h]; exact ⟨rfl, rfl⟩)
      | (rw [← h]; simp_all)
      | (rw [← e1]; simp_all)
      | simp_all)
  rw [if_neg g14] at h
  by_cases g15 : q = "function-mark"
  · rw [if_pos g15] at h
    repeat' (first
      | (simp only [Option.bind_eq_bind', Option.bind_eq_some', Option.bind_eq_some,
          Option.some.injEq, Option.some_bind, Option.none_bind,
          List.getElem?_concat_length, set_concat_self,
          and_assoc, exists_and_left, exists_eq_left', exists_eq_left, exists_conj_hoist,
          ImportState.appendToVoice,
          ImportState.setElt, ImportState.setCtx, ImportState.setSheet, ImportState.setVoice,
          ImportState.setMark, ImportState.setTuplet] at h)
      | (split at h)
      | (obtain ⟨w, e1, h⟩ := h))
    all_goals (first
      | (subst_vars; exact ⟨rfl, rfl⟩)
      | (rw [← e1]; exact ⟨rfl, rfl⟩)
      | (rw [← h]; exact ⟨rfl, rfl⟩)
      | (rw [← h]; simp_all)
      | (rw [← e1]; simp_all)
      | simp_all)
  rw [if_neg g15] at h
  by_cases g16 : q = "diatonic-key"
  · rw [if_pos g16] at h
    repeat' (first
      | (simp only [Option.bind_eq_bind', Option.bind_eq_some', Option.bind_eq_some,
          Option.some.injEq, Option.some_bind, Option.none_bind,
          List.getElem?_concat_length, set_concat_self,
          and_assoc, exists_and_left, exists_eq_left', exists_eq_left, exists_conj_hoist,
          ImportState.appendToVoice,
          ImportState.setElt, ImportState.setCtx, ImportState.setSheet, ImportState.setVoice,
          ImportState.setMark, ImportState.setTuplet] at h)
      | (split at h)
      | (obtain ⟨w, e1, h⟩ := h))
    all_goals (first
      | (subst_vars; exact ⟨rfl, rfl⟩)
      | (rw [← e1]; exact ⟨rfl, rfl⟩)
      | (rw [← h]; exact ⟨rfl, rfl⟩)
      | (rw [← h]; simp_all)
      | (rw [← e1]; simp_all)
      | simp_all)
  rw [if_neg g16] at h
  by_cases g17 : q = "chord-name"
  · rw [if_pos g17] at h
    repeat' (first
      | (simp only [Option.bind_eq_bind', Option.bind_eq_some', Option.bind_eq_some,
          Option.some.injEq, Option.some_bind, Option.none_bind,
          List.getElem?_concat_length, set_concat_self,
          and_assoc, exists_and_left, exists_eq_left', exists_eq_left, exists_conj_hoist,
          ImportState.appendToVoice,
          ImportState.setElt, ImportState.setCtx, ImportState.setSheet, ImportState.setVoice,
          ImportState.setMark, ImportState.setTuplet] at h)
      | (split at h)
      | (obtain ⟨w, e1, h⟩ := h))
    all_goals (first
      | (subst_vars; exact ⟨rfl, rfl⟩)
      | (rw [← e1]; exact ⟨rfl, rfl⟩)
      | (rw [← h]; exact ⟨rfl, rfl⟩)
      | (rw [← h]; simp_all)
      | (rw [← e1]; simp_all)
      | simp_all)
  rw [if_neg g17] at h
  injection h with h
  subst h
  exact ⟨rfl, rfl⟩

theorem endAlways_spec (st st' : ImportState) (h : endAlways st = some st') :
    st' = { st with
      cha := "", depth := st.depth.tail,
      curMusElt := st'.curMusElt, prevMusElt := st'.prevMusElt } := by
  unfold endAlways at h
  rcases hd : st.depth with _ | ⟨d, ds⟩
  · rw [hd] at h
    simp at h
  · rw [hd] at h
    simp only [List.head?_cons, Option.bind_eq_bind', Option.some_bind, List.tail_cons] at h
    split at h
    · simp only [Option.some.injEq] at h
      rw [← h]
      rfl
    · simp only [Option.some.injEq] at h
      rw [← h]
      rfl

/-- C7 (amended): the kind token is pushed onto the depth stack for every
open event the handler accepts, and every accepted close event clears the
text buffer and pops the depth stack; a failing handler, however, returns
before that point, leaving the depth stack (and, for close events, the text
buffer) unchanged. -/
theorem c7_depth_discipline :
    (∀ st q a st', startElement st q a = some (true, st') → st'.depth = q :: st.depth) ∧
    (∀ st q a st', startElement st q a = some (false, st') → st'.depth = st.depth) ∧
    (∀ st q st', endElement st q = some (true, st') →
      st'.depth = st.depth.tail ∧ st'.cha = "") ∧
    (∀ st q st', endElement st q = some (false, st') →
      st'.depth = st.depth ∧ st'.cha = st.cha) := by
  have hstart : ∀ st q a b st', startElement st q a = some (b, st') →
      (b = true → st'.depth = q :: st.depth) ∧ (b = false → st'.depth = st.depth) := by
    intro st q a b st' h
    unfold startElement at h
    rcases hr : startBranch (colorPreamble st a) q a with _ | ⟨b2, st2⟩
    · rw [hr] at h
      simp at h
    · rw [hr] at h
      have hp := startBranch_preserves _ _ _ _ hr
      rw [colorPreamble_eq] at hp
      simp only [] at hp
      cases b2
      · simp only [Option.bind_eq_bind', Option.some_bind, Option.some.injEq,
          Prod.mk.injEq] at h
        obtain ⟨hb, hst⟩ := h
        subst hb
        subst hst
        exact ⟨fun hc => absurd hc (by simp), fun _ => hp.1⟩
      · simp only [Option.bind_eq_bind', Option.some_bind, Option.some.injEq,
          Prod.mk.injEq] at h
        obtain ⟨hb, hst⟩ := h
        subst hb
        rw [← hst]
        exact ⟨fun _ => by simp [hp.1], fun hc => absurd hc (by simp)⟩
  have hend : ∀ st q b st', endElement st q = some (b, st') →
      (b = true → st'.depth = st.depth.tail ∧ st'.cha = "") ∧
      (b = false → st'.depth = st.depth ∧ st'.cha = st.cha) := by
    intro st q b st' h
    unfold endElement at h
    rcases hr : endBranch st q with _ | ⟨b2, st2⟩
    · rw [hr] at h
      simp at h
    · rw [hr] at h
      have hp := endBranch_preserves _ _ _ hr
      simp only [] at hp
      cases b2
      · simp only [Option.bind_eq_bind', Option.some_bind, Option.some.injEq,
          Prod.mk.injEq] at h
        obtain ⟨hb, hst⟩ := h
        subst hb
        subst hst
        exact ⟨fun hc => absurd hc (by simp), fun _ => ⟨hp.1, hp.2⟩⟩
      · simp only [Option.bind_eq_bind', Option.some_bind] at h
        rcases ha : endAlways st2 with _ | st3
        · rw [ha] at h
          simp at h
        · rw [ha] at h
          simp only [Option.bind_eq_bind', Option.some_bind, Option.some.injEq,
            Prod.mk.injEq] at h
          obtain ⟨hb, hst⟩ := h
          subst hb
          rw [← hst]
          have hs := endAlways_spec st2 st3 ha
          constructor
          · intro _
            constructor
            · rw [hs]
              simp [hp.1]
            · rw [hs]
          · intro hc
            exact absurd hc (by simp)
  refine ⟨fun st q a st' h => ((hstart st q a true st' h).1 rfl),
    fun st q a st' h => ((hstart st q a false st' h).2 rfl),
    fun st q st' h => ((hend st q true st' h).1 rfl),
    fun st q st' h => ((hend st q false st' h).2 rfl)⟩

/-- C6 witness: the fresh importer has no current context, so opening a
voice fails with the descriptive message and builds no voice. -/
theorem c6_witness :
    ∃ st', startElement initImportState "voice" ([] : Attrs) = some (false, st') ∧
      st'.voices = initImportState.voices ∧
      (st'.errorMsg = "The context where the voice " ++ Attrs.value [] "name" ++
          " should be added does not exist yet!" ∨
        st'.errorMsg = "The context type which contains voice " ++ Attrs.value [] "name" ++
          " is not staff!") :=
  c6_voice_precondition initImportState [] (Or.inl rfl)

/-- C7 counterexample: the claim says the kind is pushed / the stack popped
and buffer cleared regardless of branch outcome, including when the handler
fails.  A voice open event with no current context fails and pushes
nothing, and a clef close event without a current staff context fails,
popping nothing and clearing nothing. -/
theorem c7_counterexample :
    ((startElement initImportState "voice" []).map (fun p => (p.1, p.2.depth)) =
      some (false, [])) ∧
    ((endElement c7FailState "clef").map (fun p => (p.1, p.2.depth, p.2.cha)) =
      some (false, ["clef"], "x")) :=
  ⟨rfl, rfl⟩

/-- C7 witness: a successfully handled document open event pushes its kind. -/
theorem c7_witness :
    ∃ st', startElement initImportState "document" [] = some (true, st') ∧
      st'.depth = ["document"] := by
  obtain ⟨st', h⟩ : ∃ st', startElement initImportState "document" [] = some (true, st') :=
    ⟨_, rfl⟩
  exact ⟨st', h, by simpa using c7_depth_discipline.1 initImportState "document" [] st' h⟩

/-- C10: for every barline open event the built barline's display color
stays unset, regardless of the color attribute and the document version,
while the clef, time-signature, key-signature, note and rest open handlers
all apply the uniformly parsed color to the element they build. -/
theorem c10_barline_color_never_applied (st : ImportState) (attributes : Attrs)
    (vid : Nat) (v : CAVoice) (hvid : st.curVoice = some vid)
    (hv : st.voices[vid]? = some v) :
    (∃ st' e, startElement st "barline" attributes = some (true, st') ∧
      st'.curBarline = some st.elts.length ∧ st'.elts[st.elts.length]? = some e ∧
      e.color = none ∧
      e.data = EltData.barline (attributes.value "barline-type") v.staff) ∧
    (∃ st' e, startElement st "clef" attributes = some (true, st') ∧
      st'.elts[st.elts.length]? = some e ∧ e.color = parsedColor st attributes) ∧
    (∃ st' e, startElement st "time-signature" attributes = some (true, st') ∧
      st'.elts[st.elts.length]? = some e ∧ e.color = parsedColor st attributes) ∧
    (keySignatureTypeFromString (attributes.value "key-signature-type") =
        CAKeySignatureType.MajorMinor →
      ∃ st' e, startElement st "key-signature" attributes = some (true, st') ∧
        st'.elts[st.elts.length]? = some e ∧ e.color = parsedColor st attributes) ∧
    (st.curTuplet = none →
      (∃ st' e, startElement st "note" attributes = some (true, st') ∧
        st'.elts[st.elts.length]? = some e ∧ e.color = parsedColor st attributes) ∧
      (∃ st' e, startElement st "rest" attributes = some (true, st') ∧
        st'.elts[st.elts.length]? = some e ∧ e.color = parsedColor st attributes)) := by
  refine ⟨⟨_, _, barline_open_eq st attributes vid v hvid hv,
      rfl, List.getElem?_concat_length _ _, rfl, rfl⟩,
    ⟨_, _, clef_open_eq st attributes vid v hvid hv,
      List.getElem?_concat_length _ _, rfl⟩,
    ⟨_, _, timeSig_open_eq st attributes vid v hvid hv,
      List.getElem?_concat_length _ _, rfl⟩,
    fun hks => ⟨_, _, keySigMM_open_eq st attributes vid v hvid hv hks,
      List.getElem?_concat_length _ _, rfl⟩,
    fun htu => ⟨⟨_, _, note_open_eq st attributes htu,
        List.getElem?_concat_length _ _, rfl⟩,
      ⟨_, _, rest_open_eq st attributes htu,
        List.getElem?_concat_length _ _, rfl⟩⟩⟩

/-- C10 witness: a barline opened with an explicit red color attribute on a
staff with one voice still imports with its color unset. -/
theorem c10_witness :
    ∃ st' e, startElement c10State "barline"
        [("color", "#ff0000"), ("barline-type", "normal"), ("time-start", "0")] =
        some (true, st') ∧
      st'.curBarline = some c10State.elts.length ∧
      st'.elts[c10State.elts.length]? = some e ∧ e.color = none ∧
      e.data = EltData.barline "normal" 0 :=
  (c10_barline_color_never_applied c10State
    [("color", "#ff0000"), ("barline-type", "normal"), ("time-start", "0")]
    0 _ rfl rfl).1

/-- C4 counterexample: the claim quantifies over every element open event,
but a version-0.8.0 barline with color "#ff0000" imports with its color
unset — the parsed color was available (the state's color field holds it)
yet the barline handler never applies it. -/
theorem c4_counterexample :
    (runEvents initImportState c4Events).map
        (fun p => (p.1, p.2.elts.map (fun e => e.color), p.2.color)) =
      some (true, [none], some "#ff0000") ∧
    (none : QColor) ≠ some "#ff0000" :=
  ⟨by decide, by decide⟩

/-- C4 (amended): for every element open event carrying a non-empty color
attribute, the uniformly parsed color is discarded when the declared
version is at most 0.7.3 and kept otherwise, and every element-building
open handler except the barline handler applies it to its element (shown
for clef, time-signature, major/minor key-signature, note, rest and
chord-name; the barline handler leaves the color unset); in particular a
version-0.7.3 note with color "#ff0000" imports with its color unset while
a version-0.8.0 note with the same attribute imports with its color red. -/
theorem c4_color_suppression (st : ImportState) (attributes : Attrs)
    (hcol : attributes.value "color" ≠ "") :
    ((colorPreamble st attributes).color =
      if qvLE st.version [0, 7, 3] then none else some (attributes.value "color")) ∧
    (∀ vid v, st.curVoice = some vid → st.voices[vid]? = some v →
      (∃ st' e, startElement st "clef" attributes = some (true, st') ∧
        st'.elts[st.elts.length]? = some e ∧ e.color = parsedColor st attributes) ∧
      (∃ st' e, startElement st "time-signature" attributes = some (true, st') ∧
        st'.elts[st.elts.length]? = some e ∧ e.color = parsedColor st attributes) ∧
      (keySignatureTypeFromString (attributes.value "key-signature-type") =
          CAKeySignatureType.MajorMinor →
        ∃ st' e, startElement st "key-signature" attributes = some (true, st') ∧
          st'.elts[st.elts.length]? = some e ∧ e.color = parsedColor st attributes) ∧
      (∃ st' e, startElement st "barline" attributes = some (true, st') ∧
        st'.elts[st.elts.length]? = some e ∧ e.color = none)) ∧
    (st.curTuplet = none →
      (∃ st' e, startElement st "note" attributes = some (true, st') ∧
        st'.elts[st.elts.length]? = some e ∧ e.color = parsedColor st attributes) ∧
      (∃ st' e, startElement st "rest" attributes = some (true, st') ∧
        st'.elts[st.elts.length]? = some e ∧ e.color = parsedColor st attributes)) ∧
    (∃ st' e, startElement st "chord-name" attributes = some (true, st') ∧
      st'.elts[st.elts.length]? = some e ∧ e.color = parsedColor st attributes) ∧
    (parsedColor st attributes =
      if qvLE st.version [0, 7, 3] then none else some (attributes.value "color")) ∧
    ((runEvents initImportState c4NoteEvents073).map
        (fun p => p.2.elts.map (fun e => e.color)) = some [none]) ∧
    ((runEvents initImportState c4NoteEvents080).map
        (fun p => p.2.elts.map (fun e => e.color)) = some [some "#ff0000"]) := by
  have hpc : parsedColor st attributes =
      if qvLE st.version [0, 7, 3] then none else some (attributes.value "color") := by
    unfold parsedColor qColorFromString
    rw [if_pos hcol]
  refine ⟨by rw [colorPreamble_eq]; exact hpc,
    fun vid v hvid hv =>
      ⟨⟨_, _, clef_open_eq st attributes vid v hvid hv,
          List.getElem?_concat_length _ _, rfl⟩,
        ⟨_, _, timeSig_open_eq st attributes vid v hvid hv,
          List.getElem?_concat_length _ _, rfl⟩,
        fun hks => ⟨_, _, keySigMM_open_eq st attributes vid v hvid hv hks,
          List.getElem?_concat_length _ _, rfl⟩,
        ⟨_, _, barline_open_eq st attributes vid v hvid hv,
          List.getElem?_concat_length _ _, rfl⟩⟩,
    fun htu =>
      ⟨⟨_, _, note_open_eq st attributes htu, List.getElem?_concat_length _ _, rfl⟩,
        ⟨_, _, rest_open_eq st attributes htu, List.getElem?_concat_length _ _, rfl⟩⟩,
    ⟨_, _, chordName_open_eq st attributes, List.getElem?_concat_length _ _, rfl⟩,
    hpc, by decide, by decide⟩

/-- C4 witness: at version 0.8.0 (later than 0.7.3) the parsed color of a
red color attribute is kept, and a note built in that state carries it. -/
theorem c4_witness :
    ((colorPreamble { initImportState with version := [0, 8, 0] }
        [("color", "#ff0000")]).color =
      if qvLE ([0, 8, 0] : QVersionNumber) [0, 7, 3] then none else some "#ff0000") ∧
    (∃ st' e, startElement { initImportState with version := [0, 8, 0] } "note"
        [("color", "#ff0000")] = some (true, st') ∧
      st'.elts[0]? = some e ∧
      e.color = parsedColor { initImportState with version := [0, 8, 0] }
        [("color", "#ff0000")]) := by
  have h := c4_color_suppression { initImportState with version := [0, 8, 0] }
    [("color", "#ff0000")] (by decide)
  exact ⟨h.1, (h.2.2.1 rfl).1⟩

/-- C9 counterexample: the first unnamed lyrics context of a sheet already
holding one staff is auto-named "LyricsContext2" (1 + the count of all
contexts of the sheet), not "LyricsContext1" (1 + the count of lyrics
contexts) as the claim requires. -/
theorem c9_counterexample :
    (runEvents initImportState c9Events).map
        (fun p => (p.1, p.2.contexts.map (fun c => c.name))) =
      some (true, ["Staff1", "LyricsContext2"]) ∧
    "LyricsContext2" ≠ "LyricsContext1" :=
  ⟨by decide, by decide⟩

/-- C9 (amended): an absent or empty name attribute is completed to
"KindN", where N is 1 + the count of sheets in the document for a sheet,
1 + the count of staves of the sheet for a staff, 1 + the count of voices
of the staff for a voice, and — for the four non-staff context kinds —
1 + the count of ALL contexts of the enclosing sheet regardless of kind. -/
theorem c9_auto_naming (st : ImportState) (attributes : Attrs)
    (hname : attributes.value "name" = "") :
    (∀ doc, st.document = some doc →
      ∃ st', startElement st "sheet" attributes = some (true, st') ∧
        ∃ sh, st'.sheets[st.sheets.length]? = some sh ∧
          sh.name = "Sheet" ++ toString (doc.sheets.length + 1)) ∧
    (∀ shId sh, st.curSheet = some shId → st.sheets[shId]? = some sh →
      (∃ st', startElement st "staff" attributes = some (true, st') ∧
        ∃ c, st'.contexts[st.contexts.length]? = some c ∧
          c.name = "Staff" ++ toString ((staffListIn st.contexts sh).length + 1)) ∧
      (attributes.value "associated-voice-idx" = "" →
        ∃ st', startElement st "lyrics-context" attributes = some (true, st') ∧
          ∃ c, st'.contexts[st.contexts.length]? = some c ∧
            c.name = "LyricsContext" ++ toString (sh.contexts.length + 1)) ∧
      (∃ st', startElement st "figured-bass-context" attributes = some (true, st') ∧
        ∃ c, st'.contexts[st.contexts.length]? = some c ∧
          c.name = "FiguredBassContext" ++ toString (sh.contexts.length + 1)) ∧
      (∃ st', startElement st "function-mark-context" attributes = some (true, st') ∧
        ∃ c, st'.contexts[st.contexts.length]? = some c ∧
          c.name = "FunctionMarkContext" ++ toString (sh.contexts.length + 1)) ∧
      (∃ st', startElement st "chord-name-context" attributes = some (true, st') ∧
        ∃ c, st'.contexts[st.contexts.length]? = some c ∧
          c.name = "ChordNameContext" ++ toString (sh.contexts.length + 1))) ∧
    (∀ cid ctx, st.curContext = some cid → st.contexts[cid]? = some ctx →
      ctx.ctxType = CAContextType.Staff →
      attributes.value "midi-channel" = "" → attributes.value "midi-program" = "" →
      attributes.value "midi-pitch-offset" = "" →
      ∃ st', startElement st "voice" attributes = some (true, st') ∧
        ∃ vv, st'.voices[st.voices.length]? = some vv ∧
          vv.name = "Voice" ++ toString (ctx.voices.length + 1)) := by
  refine ⟨fun doc hdoc => ⟨_, sheet_open_eq st attributes doc hdoc hname,
      _, List.getElem?_concat_length _ _, rfl⟩,
    fun shId sh hsh hget =>
      ⟨⟨_, staff_open_eq st attributes shId sh hsh hget hname,
          _, List.getElem?_concat_length _ _, rfl⟩,
        fun hidx => ⟨_, lyricsContext_open_eq st attributes shId sh hsh hget hname hidx,
          _, List.getElem?_concat_length _ _, rfl⟩,
        ⟨_, figuredBassContext_open_eq st attributes shId sh hsh hget hname,
          _, List.getElem?_concat_length _ _, rfl⟩,
        ⟨_, functionMarkContext_open_eq st attributes shId sh hsh hget hname,
          _, List.getElem?_concat_length _ _, rfl⟩,
        ⟨_, chordNameContext_open_eq st attributes shId sh hsh hget hname,
          _, List.getElem?_concat_length _ _, rfl⟩⟩,
    fun cid ctx hc hget hty hmc hmp hmo =>
      ⟨_, voice_open_eq st attributes cid ctx hc hget hty hname hmc hmp hmo,
        _, List.getElem?_concat_length _ _, rfl⟩⟩

/-- C9 witness: in a document whose sheet holds no context yet, an unnamed
staff is auto-named "Staff1". -/
theorem c9_witness :
    ∃ st', startElement c9WitState "staff" ([] : Attrs) = some (true, st') ∧
      ∃ c, st'.contexts[c9WitState.contexts.length]? = some c ∧
        c.name = "Staff" ++ toString ((staffListIn c9WitState.contexts
          { name := "Sheet1" }).length + 1) :=
  ((c9_auto_naming c9WitState [] rfl).2.1 0 { name := "Sheet1" } rfl rfl).1


theorem noteTuplet_setNoteLen (dta : EltData) (l : CAPlayableLength) :
    (dta.setNoteLen l).noteTuplet = dta.noteTuplet := by
  cases dta <;> rfl

theorem endBranch_note_eq (st : ImportState) :
    endBranch st "note" = (do
      let st1 ←
        (if qvIsPrefixOf [0, 5] st.version then some st
         else do
           let nid ← st.curNote
           let e ← st.elts[nid]?
           let e1 := { e with data := e.data.setNoteLen st.curPlayableLength }
           let e2 := if e1.data.noteTuplet.isNone then
               { e1 with timeLength := playableTimeLength st.curPlayableLength }
             else e1
           let e3 := { e2 with data := e2.data.setNotePitch st.curDiatonicPitch }
           some (st.setElt nid e3) : Option ImportState)
      let nid ← st1.curNote
      let n ← st1.elts[nid]?
      let vid ← st1.curVoice
      let v ← st1.voices[vid]?
      let isChord :=
        match st1.lastNoteOf v with
        | some lid =>
          match st1.elts[lid]? with
          | some le => decide (le.timeStart = n.timeStart)
          | none => false
        | none => false
      let st2 ← st1.appendToVoice vid nid isChord
      let st3 := st2.updateTies vid nid
      some (true, { st3 with curNote := none })) := rfl

theorem endBranch_rest_eq (st : ImportState) :
    endBranch st "rest" = (do
      let st1 ←
        (if qvIsPrefixOf [0, 5] st.version then some st
         else do
           let rid ← st.curRest
           let e ← st.elts[rid]?
           let e1 := { e with data := e.data.setNoteLen st.curPlayableLength }
           let e2 := if e1.data.noteTuplet.isNone then
               { e1 with timeLength := playableTimeLength st.curPlayableLength }
             else e1
           some (st.setElt rid e2) : Option ImportState)
      let rid ← st1.curRest
      let vid ← st1.curVoice
      let st2 ← st1.appendToVoice vid rid
      some (true, { st2 with curRest := none })) := rfl

set_option maxHeartbeats 1600000 in
theorem note_close_eq (st : ImportState) (nid vid : Nat) (e : CAMusElement) (v : CAVoice)
    (d : String) (ds : List String)
    (hver : qvIsPrefixOf [0, 5] st.version = false)
    (hn : st.curNote = some nid) (he : st.elts[nid]? = some e)
    (hv : st.curVoice = some vid) (hvv : st.voices[vid]? = some v)
    (hemp : v.elements = []) (hd : st.depth = d :: ds) :
    endElement st "note" = some (true, { st with
      elts := st.elts.set nid { e with
        data := (e.data.setNoteLen st.curPlayableLength).setNotePitch st.curDiatonicPitch,
        timeLength := if e.data.noteTuplet = none then
          playableTimeLength st.curPlayableLength else e.timeLength },
      voices := st.voices.set vid { v with elements := [nid] },
      curNote := none, cha := "", depth := ds,
      curMusElt := match st.prevMusElt with
        | some p => some p
        | none => st.curMusElt,
      prevMusElt := none }) := by
  have hlt : nid < st.elts.length := by
    rcases List.getElem?_eq_some.mp he with ⟨h1, _⟩
    exact h1
  have hvlt : vid < st.voices.length := by
    rcases List.getElem?_eq_some.mp hvv with ⟨h1, _⟩
    exact h1
  rcases htup : e.data.noteTuplet with _ | t <;>
    rcases hp : st.prevMusElt with _ | p <;>
    simp [endElement, endBranch_note_eq, endAlways, hver, hn, he, hv, hvv, hemp, hd, htup, hp,
      noteTuplet_setNoteLen, ImportState.setElt, ImportState.setVoice,
      ImportState.appendToVoice, ImportState.lastNoteOf, lastNoteIn,
      ImportState.updateTies, List.getElem?_set_self, hlt, hvlt]

set_option maxHeartbeats 1600000 in
theorem note_close_old_eq (st : ImportState) (nid vid : Nat) (e : CAMusElement) (v : CAVoice)
    (d : String) (ds : List String)
    (hver : qvIsPrefixOf [0, 5] st.version = true)
    (hn : st.curNote = some nid) (he : st.elts[nid]? = some e)
    (hv : st.curVoice = some vid) (hvv : st.voices[vid]? = some v)
    (hemp : v.elements = []) (hd : st.depth = d :: ds) :
    endElement st "note" = some (true, { st with
      voices := st.voices.set vid { v with elements := [nid] },
      curNote := none, cha := "", depth := ds,
      curMusElt := match st.prevMusElt with
        | some p => some p
        | none => st.curMusElt,
      prevMusElt := none }) := by
  have hvlt : vid < st.voices.length := by
    rcases List.getElem?_eq_some.mp hvv with ⟨h1, _⟩
    exact h1
  rcases hp : st.prevMusElt with _ | p <;>
    simp [endElement, endBranch_note_eq, endAlways, hver, hn, he, hv, hvv, hemp, hd, hp,
      ImportState.setVoice, ImportState.appendToVoice, ImportState.lastNoteOf, lastNoteIn,
      ImportState.updateTies, List.getElem?_set_self, hvlt]

set_option maxHeartbeats 1600000 in
theorem rest_close_eq (st : ImportState) (rid vid : Nat) (e : CAMusElement) (v : CAVoice)
    (d : String) (ds : List String)
    (hver : qvIsPrefixOf [0, 5] st.version = false)
    (hr : st.curRest = some rid) (he : st.elts[rid]? = some e)
    (hv : st.curVoice = some vid) (hvv : st.voices[vid]? = some v)
    (hd : st.depth = d :: ds) :
    endElement st "rest" = some (true, { st with
      elts := st.elts.set rid { e with
        data := e.data.setNoteLen st.curPlayableLength,
        timeLength := if e.data.noteTuplet = none then
          playableTimeLength st.curPlayableLength else e.timeLength },
      voices := st.voices.set vid { v with elements := v.elements ++ [rid] },
      curRest := none, cha := "", depth := ds,
      curMusElt := match st.prevMusElt with
        | some p => some p
        | none => st.curMusElt,
      prevMusElt := none }) := by
  have hlt : rid < st.elts.length := by
    rcases List.getElem?_eq_some.mp he with ⟨h1, _⟩
    exact h1
  have hvlt : vid < st.voices.length := by
    rcases List.getElem?_eq_some.mp hvv with ⟨h1, _⟩
    exact h1
  rcases htup : e.data.noteTuplet with _ | t <;>
    rcases hp : st.prevMusElt with _ | p <;>
    simp [endElement, endBranch_rest_eq, endAlways, hver, hr, he, hv, hvv, hd, htup, hp,
      noteTuplet_setNoteLen, ImportState.setElt, ImportState.setVoice,
      ImportState.appendToVoice, List.getElem?_set_self, hlt, hvlt]

/-- C2 counterexample: version 0.5 is not pre-0.5 (it is not below 0.5 in
version order), yet the note built for a version-0.5 stream takes its pitch
directly from the open event attributes rather than a placeholder. -/
theorem c2_counterexample :
    (runEvents initImportState c2Events).map
        (fun p => (p.1, p.2.version, p.2.elts.map (fun e => e.data))) =
      some (true, [0, 5],
        [EltData.note ⟨5, 0⟩ ⟨"", 0⟩ (some 0) "neutral"
          none none none none none none]) ∧
    qvCompare [0, 5] [0, 5] ≠ Ordering.lt ∧
    (⟨5, 0⟩ : CADiatonicPitch) ≠ CADiatonicPitch.empty :=
  ⟨by decide, by decide, by decide⟩

/-- C2 (amended): pitch and playable length come directly from the open
event attributes exactly when the declared version has 0.5 as a prefix
(0.5 itself or any 0.5.x); for every other version (earlier or later) the
note/rest is built with placeholder pitch/length, and the matching close
event applies the accumulated diatonic-pitch/playable-length values, with
the time length derived from the playable length unless the element belongs
to a tuplet. -/
theorem c2_version_gated_note_shape :
    (∀ st attributes, st.curTuplet = none →
      ∃ st' e, startElement st "note" attributes = some (true, st') ∧
        st'.elts[st.elts.length]? = some e ∧
        e.data = EltData.note
          (if qvIsPrefixOf [0, 5] st.version then
            CADiatonicPitch.mk (qtToInt (attributes.value "pitch"))
              (qtToInt (attributes.value "accs"))
           else CADiatonicPitch.empty)
          (if qvIsPrefixOf [0, 5] st.version then
            CAPlayableLength.mk (attributes.value "playable-length")
              (qtToInt (attributes.value "dotted"))
           else CAPlayableLength.empty)
          st.curVoice
          (if attributes.value "stem-direction" ≠ "" then
            attributes.value "stem-direction" else "neutral")
          none none none none none none) ∧
    (∀ st attributes, st.curTuplet = none →
      ∃ st' e, startElement st "rest" attributes = some (true, st') ∧
        st'.elts[st.elts.length]? = some e ∧
        e.data = EltData.rest (attributes.value "rest-type")
          (if qvIsPrefixOf [0, 5] st.version then
            CAPlayableLength.mk (attributes.value "playable-length")
              (qtToInt (attributes.value "dotted"))
           else CAPlayableLength.empty)
          st.curVoice none) ∧
    (∀ st nid vid e v d ds,
      qvIsPrefixOf [0, 5] st.version = false →
      st.curNote = some nid → st.elts[nid]? = some e →
      st.curVoice = some vid → st.voices[vid]? = some v →
      v.elements = [] → st.depth = d :: ds →
      ∃ st' e2, endElement st "note" = some (true, st') ∧
        st'.elts[nid]? = some e2 ∧
        e2.data = (e.data.setNoteLen st.curPlayableLength).setNotePitch
          st.curDiatonicPitch ∧
        e2.timeLength = (if e.data.noteTuplet = none then
          playableTimeLength st.curPlayableLength else e.timeLength) ∧
        (st'.voices[vid]?).map CAVoice.elements = some [nid]) ∧
    (∀ st rid vid e v d ds,
      qvIsPrefixOf [0, 5] st.version = false →
      st.curRest = some rid → st.elts[rid]? = some e →
      st.curVoice = some vid → st.voices[vid]? = some v →
      st.depth = d :: ds →
      ∃ st' e2, endElement st "rest" = some (true, st') ∧
        st'.elts[rid]? = some e2 ∧
        e2.data = e.data.setNoteLen st.curPlayableLength ∧
        e2.timeLength = (if e.data.noteTuplet = none then
          playableTimeLength st.curPlayableLength else e.timeLength) ∧
        (st'.voices[vid]?).map CAVoice.elements = some (v.elements ++ [rid])) ∧
    (∀ st nid vid e v d ds,
      qvIsPrefixOf [0, 5] st.version = true →
      st.curNote = some nid → st.elts[nid]? = some e →
      st.curVoice = some vid → st.voices[vid]? = some v →
      v.elements = [] → st.depth = d :: ds →
      ∃ st', endElement st "note" = some (true, st') ∧
        st'.elts[nid]? = some e ∧
        (st'.voices[vid]?).map CAVoice.elements = some [nid]) := by
  refine ⟨?_, ?_, ?_, ?_, ?_⟩
  · intro st attributes htu
    exact ⟨_, _, note_open_eq st attributes htu, List.getElem?_concat_length _ _, rfl⟩
  · intro st attributes htu
    exact ⟨_, _, rest_open_eq st attributes htu, List.getElem?_concat_length _ _, rfl⟩
  · intro st nid vid e v d ds hver hn he hv hvv hemp hd
    have hlt : nid < st.elts.length := by
      rcases List.getElem?_eq_some.mp he with ⟨h1, _⟩
      exact h1
    have hvlt : vid < st.voices.length := by
      rcases List.getElem?_eq_some.mp hvv with ⟨h1, _⟩
      exact h1
    refine ⟨_, { e with
        data := (e.data.setNoteLen st.curPlayableLength).setNotePitch st.curDiatonicPitch,
        timeLength := if e.data.noteTuplet = none then
          playableTimeLength st.curPlayableLength else e.timeLength },
      note_close_eq st nid vid e v d ds hver hn he hv hvv hemp hd, ?_, rfl, rfl, ?_⟩
    · simp [ImportState.setElt, List.getElem?_set_self, hlt]
    · simp [ImportState.setVoice, List.getElem?_set_self, hvlt]
  · intro st rid vid e v d ds hver hr he hv hvv hd
    have hlt : rid < st.elts.length := by
      rcases List.getElem?_eq_some.mp he with ⟨h1, _⟩
      exact h1
    have hvlt : vid < st.voices.length := by
      rcases List.getElem?_eq_some.mp hvv with ⟨h1, _⟩
      exact h1
    refine ⟨_, { e with
        data := e.data.setNoteLen st.curPlayableLength,
        timeLength := if e.data.noteTuplet = none then
          playableTimeLength st.curPlayableLength else e.timeLength },
      rest_close_eq st rid vid e v d ds hver hr he hv hvv hd, ?_, rfl, rfl, ?_⟩
    · simp [ImportState.setElt, List.getElem?_set_self, hlt]
    · simp [ImportState.setVoice, List.getElem?_set_self, hvlt]
  · intro st nid vid e v d ds hver hn he hv hvv hemp hd
    have hvlt : vid < st.voices.length := by
      rcases List.getElem?_eq_some.mp hvv with ⟨h1, _⟩
      exact h1
    refine ⟨_, note_close_old_eq st nid vid e v d ds hver hn he hv hvv hemp hd, he, ?_⟩
    simp [List.getElem?_set_self, hvlt]

/-- C2 witness: on the fresh import state (version unset, hence without the
0.5 prefix) a note open with an explicit pitch attribute still builds the
placeholder pitch and length. -/
theorem c2_witness :
    ∃ st' e, startElement initImportState "note"
        [("pitch", "5"), ("accs", "0")] = some (true, st') ∧
      st'.elts[0]? = some e ∧
      e.data = EltData.note CADiatonicPitch.empty CAPlayableLength.empty none "neutral"
        none none none none none none := by
  obtain ⟨st', e, h1, h2, h3⟩ :=
    c2_version_gated_note_shape.1 initImportState [("pitch", "5"), ("accs", "0")] rfl
  exact ⟨st', e, h1, h2, by rw [h3]; decide⟩

end CanorusML
